import Mathlib

/-!
Verification development for the book-writing workflow repository.

The repository is a Python orchestration layer: an outline stage, a chapter
stage, a compile stage and a notification stage wired into a small directed
graph, gated by approval flags stored in an external datastore.  This file
gives a shallow embedding of the relevant functions:

  - text primitives model the Python string operations used by the code
    (`str.strip`, substring search, `str.split(marker, 1)`, `str.lower`);
  - `WState` models the `BookState` pydantic model of `src/state.py`;
  - `Env` packages the external world (language model replies, datastore
    rows, storage, configuration) so that each stage is a pure function
    from environment and state to an updated state plus its side effects;
  - the stage functions and routers are translated one to one from
    `src/nodes/outline.py`, `src/nodes/chapters.py`,
    `src/nodes/compile_book.py`, `src/nodes/notifications.py` and
    `src/graph.py`;
  - the worker and spreadsheet-sync helpers are translated from
    `worker.py` and `src/sync_excel.py`;
  - a fuel-indexed interpreter `run` executes the compiled graph of
    `build_graph` and records the trace of visited nodes.

All definitions are executable; theorems about them follow at the end.
-/

namespace BookFlow

/-! ## Text primitives (Python string semantics) -/

/-- Text is modelled as a list of characters. -/
abbrev Str := List Char

/-- Literal helper: the character list of a Lean string literal. -/
def lit (s : String) : Str := s.data

/-- Whitespace characters recognised by Python `str.strip` (ASCII range). -/
def pyWS (c : Char) : Bool :=
  c = ' ' || c = '\t' || c = '\n' || c = '\r' ||
  c = Char.ofNat 11 || c = Char.ofNat 12

/-- Python `str.strip()`: drop leading and trailing whitespace. -/
def pyStrip (s : Str) : Str :=
  ((s.dropWhile pyWS).reverse.dropWhile pyWS).reverse

/-- Boolean list-prefix test (explicit recursion for easy unfolding). -/
def isPre : Str → Str → Bool
  | [], _ => true
  | _ :: _, [] => false
  | a :: as, b :: bs => a = b && isPre as bs

/-- Split a text at the first occurrence of a marker.  `some (a, b)` means
the text is `a ++ marker ++ b` with no occurrence of the marker inside `a`
or straddling the boundary of `a` and the marker; `none` means the marker
does not occur.  This models Python `text.split(marker, 1)` together with
the `marker in text` containment test. -/
def splitFirst (m : Str) : Str → Option (Str × Str)
  | [] => if m = [] then some ([], []) else none
  | c :: rest =>
      if isPre m (c :: rest) then some ([], (c :: rest).drop m.length)
      else
        match splitFirst m rest with
        | some (a, b) => some (c :: a, b)
        | none => none

/-- Substring containment, Python `m in s`. -/
def containsSub (m s : Str) : Bool := (splitFirst m s).isSome

/-- ASCII lower-casing, Python `str.lower` restricted to ASCII letters. -/
def pyLower (s : Str) : Str :=
  s.map fun c => if 'A' ≤ c ∧ c ≤ 'Z' then Char.ofNat (c.toNat + 32) else c

/-- ASCII digit test, Python `str.isdigit` restricted to ASCII. -/
def isDigitChar (c : Char) : Bool := '0' ≤ c && c ≤ '9'

/-- Parse a digit string to a natural number, Python `int(...)`. -/
def digitsToNat (s : Str) : Nat :=
  s.foldl (fun a c => a * 10 + (c.toNat - 48)) 0

/-- Python truthiness of a string: non-empty. -/
def truthy (s : Str) : Bool := !s.isEmpty

/-- Python truthiness of a nullable string: not `None` and non-empty. -/
def truthyOpt (v : Option Str) : Bool :=
  match v with
  | none => false
  | some s => truthy s

/-- Python `value or ""` on a nullable string. -/
def orEmpty (v : Option Str) : Str := v.getD []

/-! ## Event names used by the workflow (`state.control["event"]` values) -/

def evMissingNotes : Str := lit "missing_notes_on_outline_before"
def evOutlineGenerated : Str := lit "outline_generated"
def evOutlineWaiting : Str := lit "outline_waiting_for_notes"
def evOutlinePausedStatus : Str := lit "outline_paused_missing_status"
def evWaitingChapterNotes : Str := lit "waiting_for_chapter_notes"
def evPausedChapterStatus : Str := lit "paused_for_chapter_notes_status"
def evChapterGenerated : Str := lit "chapter_generated"
def evAllChaptersDone : Str := lit "all_chapters_done"
def evFinalReviewNotReady : Str := lit "final_review_not_ready"
def evBookCompiled : Str := lit "book_compiled"

def stYes : Str := lit "yes"
def stNoNotesNeeded : Str := lit "no_notes_needed"

/-! ## State (`src/state.py`) -/

/-- One row of the `chapter_summaries` table / one `ChapterSummary` model. -/
structure ChapterSummary where
  chapter_number : Nat
  summary : Str
deriving DecidableEq, Repr

/-- The `BookState` pydantic model of `src/state.py`, hydrated from the
datastore at the start of a run.  Nullable columns are `Option Str`. -/
structure WState where
  book_id : Str
  title : Str
  notes_on_outline_before : Option Str
  outline : Option Str := none
  notes_on_outline_after : Option Str := none
  status_outline_notes : Option Str := none
  current_chapter_number : Nat := 1
  total_chapters : Nat := 0
  chapter_notes_status : Option Str := none
  chapter_notes : Option Str := none
  chapter_summaries : List ChapterSummary := []
  final_review_notes_status : Option Str := none
  final_review_notes : Option Str := none
  book_output_status : Option Str := none
  event : Option Str := none
  route_reason : Option Str := none
deriving DecidableEq, Repr

/-- The `books` table row read by `load_initial_state` in `src/graph.py`. -/
structure BookRow where
  id : Str
  title : Str
  notes_on_outline_before : Option Str
  outline : Option Str := none
  notes_on_outline_after : Option Str := none
  status_outline_notes : Option Str := none
  chapter_notes_status : Option Str := none
  final_review_notes_status : Option Str := none
  final_review_notes : Option Str := none
  book_output_status : Option Str := none
deriving DecidableEq, Repr

/-- `load_initial_state` of `src/graph.py`: build a fresh `BookState` from
the datastore row.  The select does not include `total_chapters`, so
`book.get("total_chapters") or 0` is always `0`; `current_chapter_number`
keeps its pydantic default `1`. -/
def load_initial_state (book : BookRow) : WState :=
  { book_id := book.id
    title := book.title
    notes_on_outline_before := book.notes_on_outline_before
    outline := book.outline
    notes_on_outline_after := book.notes_on_outline_after
    status_outline_notes := book.status_outline_notes
    chapter_notes_status := book.chapter_notes_status
    final_review_notes_status := book.final_review_notes_status
    final_review_notes := book.final_review_notes
    book_output_status := book.book_output_status
    total_chapters := 0 }

/-! ## Side effects -/

/-- A value written to the datastore (string or integer column). -/
inductive DbVal
  | s (v : Str)
  | n (v : Nat)
deriving DecidableEq, Repr

/-- A datastore write performed by a stage. -/
inductive DbWrite
  | booksUpdate (fields : List (Str × DbVal))
  | chaptersUpsert (chapter_number : Nat) (content : Str)
  | summariesUpsert (chapter_number : Nat) (summary : Str)
  | notificationsInsert (eventType : Str)
deriving DecidableEq, Repr

/-- A file uploaded to object storage.  The structured (DOCX) and paginated
(PDF) artifacts are built by external libraries; the model records the name
of the artifact and the data it was built from. -/
inductive Artifact
  | txt (name : Str) (content : Str)
  | docx (name : Str) (title : Str) (chapters : List (Str × Str))
  | pdf (name : Str) (title : Str) (chapters : List (Str × Str))
deriving DecidableEq, Repr

/-- Result of one stage execution: the updated state together with the
side effects the stage performed. -/
structure StageOut where
  state : WState
  llmCalls : Nat := 0
  writes : List DbWrite := []
  uploads : List Artifact := []
deriving DecidableEq, Repr

/-- An exception a stage can raise without catching it.  The compile
stage builds the paginated content (the title and per-chapter
`Paragraph` objects, lines 98 to 112 of `src/nodes/compile_book.py`)
before its `try` block starts at line 114, so a failure there — for
example a markup parse error on unescaped chapter text with the
injected line-break markup — propagates out of the stage. -/
inductive CompileError
  | pdfStoryFailed
deriving DecidableEq, Repr

/-- A stage invocation that ended in a propagated exception, together
with the side effects it had already performed before raising. -/
structure StageAbort where
  error : CompileError
  writes : List DbWrite := []
  uploads : List Artifact := []
deriving DecidableEq, Repr

/-! ## Environment: the external world seen by one invocation -/

/-- A `chapters` table row as read by the chapter stage gating query. -/
structure ChapterRow where
  editor_notes : Option Str
  chapter_notes_status : Option Str
deriving DecidableEq, Repr

/-- A `chapters` table row as read back by the compile stage. -/
structure DbChapter where
  title : Str
  content : Option Str
deriving DecidableEq, Repr

/-! ## Notification adapters (`src/notifications/email.py`, `teams.py`) -/

/-- Exceptions that the SMTP session of `send_email` can raise:
connecting, starting TLS, authenticating, or sending. -/
inductive SmtpError
  | connectFailed
  | starttlsFailed
  | authFailed
  | sendFailed
deriving DecidableEq, Repr

/-- What `send_email` did, as observable by its caller through logs. -/
inductive EmailOutcome
  | skippedNotConfigured
  | sent
  | loggedAuthFailure
  | loggedFailure
deriving DecidableEq, Repr

/-- SMTP configuration (module-level environment variables of
`src/notifications/email.py`) plus the outcome the SMTP session would
have (`none` means the session succeeds). -/
structure EmailEnv where
  smtpHost : Option Str
  smtpUser : Option Str
  smtpPass : Option Str
  notifyTo : Option Str
  smtpFailure : Option SmtpError
deriving DecidableEq, Repr

/-- The raw SMTP session (`smtplib.SMTP(...)`, `starttls`, `login`,
`send_message`): raises exactly when the environment says it fails. -/
def smtpSessionRaw (env : EmailEnv) : Except SmtpError Unit :=
  match env.smtpFailure with
  | none => Except.ok ()
  | some e => Except.error e

/-- `send_email` of `src/notifications/email.py`.  The codomain records
an exception the function would propagate as `Except.error`; the body
catches `SMTPAuthenticationError` and then every other `Exception`, and
returns as a no-op when any configuration variable is missing. -/
def send_email (env : EmailEnv) (_subject _body : Str) :
    Except SmtpError EmailOutcome :=
  if ¬ (truthyOpt env.smtpHost ∧ truthyOpt env.smtpUser ∧
        truthyOpt env.smtpPass ∧ truthyOpt env.notifyTo) then
    Except.ok EmailOutcome.skippedNotConfigured
  else
    match smtpSessionRaw env with
    | Except.ok _ => Except.ok EmailOutcome.sent
    | Except.error SmtpError.authFailed =>
        Except.ok EmailOutcome.loggedAuthFailure
    | Except.error _ => Except.ok EmailOutcome.loggedFailure

/-- Teams webhook configuration and whether the HTTP post succeeds. -/
structure TeamsEnv where
  webhookUrl : Option Str
  postOk : Bool
deriving DecidableEq, Repr

/-- `send_teams_message` of `src/notifications/teams.py`: no-op without a
webhook URL, and network errors are swallowed.  Returns whether a message
was delivered. -/
def send_teams_message (env : TeamsEnv) (_text : Str) : Bool :=
  if ¬ truthyOpt env.webhookUrl then false
  else env.postOk

/-- External collaborators of one workflow invocation: language-model
replies, datastore reads, storage URLs, configuration, and whether the
optional paginated artifact can be produced. -/
structure Env where
  /-- `get_target_chapter_count()` from `src/deps.py`. -/
  chapterCount : Nat
  /-- Language-model reply for the outline prompt. -/
  outlineText : Str
  /-- `status_outline_notes` as re-read from the datastore by the outline
  router. -/
  statusOutline : Option Str
  /-- The `chapters` row for a chapter number, `none` when the row does
  not exist yet or the read raised. -/
  chapterRow : Nat → Option ChapterRow
  /-- Language-model reply for the chapter prompt. -/
  chapterText : Nat → Str
  /-- Prior summaries loaded from the datastore for a backfill at chapter
  `n`; `none` when the read raised. -/
  summariesLoad : Nat → Option (List ChapterSummary)
  /-- `final_review_notes_status` re-read by the compile stage. -/
  frStatus : Option Str
  /-- `final_review_notes` re-read by the compile stage. -/
  frNotes : Option Str
  /-- `title` re-read by the compile stage. -/
  dbTitle : Option Str
  /-- All `chapters` rows of the book, ordered by chapter number. -/
  dbChapters : List DbChapter
  /-- Whether constructing the paginated content — the title and
  per-chapter `Paragraph` objects of lines 98 to 112 of
  `src/nodes/compile_book.py` — succeeds.  This construction happens
  before the `try` block, so `false` models an exception that
  propagates out of the compile stage uncaught. -/
  pdfStoryOk : Bool
  /-- Whether `pdf_doc.build` and the PDF upload inside the `try` block
  (lines 114 to 123) succeed; `false` models any exception inside that
  `try` block, which is caught and logged. -/
  pdfOk : Bool
  /-- `storage.get_public_url`: the URL the object store assigns to an
  uploaded file name. -/
  publicUrl : Str → Str
  /-- SMTP configuration and session outcome for the email adapter. -/
  email : EmailEnv
  /-- Teams webhook configuration for the chat adapter. -/
  teams : TeamsEnv

/-! ## Outline stage (`src/nodes/outline.py`) -/

/-- `generate_outline`: if the pre-outline notes are falsy, emit the
missing-notes event without calling the model or writing; otherwise call
the model once, store the stripped outline text, persist outline, status
`generated` and the chapter target count, and emit `outline_generated`. -/
def generate_outline (env : Env) (s : WState) : StageOut :=
  if truthyOpt s.notes_on_outline_before = false then
    { state := { s with event := some evMissingNotes } }
  else
    let chapter_count := env.chapterCount
    let outline_text := pyStrip env.outlineText
    { state := { s with
        outline := some outline_text
        total_chapters := chapter_count
        event := some evOutlineGenerated }
      llmCalls := 1
      writes := [DbWrite.booksUpdate
        [(lit "outline", DbVal.s outline_text),
         (lit "outline_status", DbVal.s (lit "generated")),
         (lit "total_chapters", DbVal.n chapter_count)]] }

/-! ## Chapter stage (`src/nodes/chapters.py`) -/

/-- The literal marker the chapter stage splits the model reply on. -/
def markerSummary : Str := lit "Summary:"

/-- The fixed placeholder used when the marker is absent. -/
def summaryPlaceholder : Str := lit "Summary section not found."

/-- Lines 130 to 135 of `src/nodes/chapters.py`: strip the model reply,
and if it contains `"Summary:"` split at the first occurrence, stripping
both parts; otherwise the body is the whole stripped reply and the
summary is the fixed placeholder. -/
def splitChapter (content : Str) : Str × Str :=
  let full_text := pyStrip content
  match splitFirst markerSummary full_text with
  | some (content_part, summary_part) =>
      (pyStrip content_part, pyStrip summary_part)
  | none => (full_text, summaryPlaceholder)

/-- Lines 63 to 80 of `src/nodes/chapters.py`: when the in-memory
summary list is empty and the chapter index is past the first chapter,
try to load prior summaries from the datastore; a failed or empty read
leaves the state unchanged (best-effort backfill). -/
def backfillSummaries (env : Env) (s : WState) : WState :=
  if s.chapter_summaries.isEmpty &&
     decide (1 < s.current_chapter_number) then
    match env.summariesLoad s.current_chapter_number with
    | some rows =>
        if rows.isEmpty then s else { s with chapter_summaries := rows }
    | none => s
  else s

/-- `generate_next_chapter`: emit `all_chapters_done` past the last
chapter; otherwise backfill prior summaries best-effort, gate on this
chapter's `chapter_notes_status`, and on proceed call the model, split
the reply, upsert chapter and summary, append the summary, increment the
index and emit `chapter_generated`. -/
def generate_next_chapter (env : Env) (s : WState) : StageOut :=
  let n := s.current_chapter_number
  if s.total_chapters < n then
    { state := { s with event := some evAllChaptersDone } }
  else
    let s1 := backfillSummaries env s
    let row := env.chapterRow n
    let chapter_notes_status :=
      match row with
      | some r => r.chapter_notes_status
      | none => none
    if chapter_notes_status = some stYes then
      { state := { s1 with event := some evWaitingChapterNotes } }
    else if chapter_notes_status ≠ none ∧
            chapter_notes_status ≠ some stNoNotesNeeded then
      { state := { s1 with event := some evPausedChapterStatus } }
    else
      let result := env.chapterText n
      let parts := splitChapter result
      let full_text := parts.1
      let summary := parts.2
      { state := { s1 with
          chapter_summaries :=
            s1.chapter_summaries ++ [⟨n, summary⟩]
          current_chapter_number := n + 1
          event := some evChapterGenerated }
        llmCalls := 1
        writes := [DbWrite.chaptersUpsert n full_text,
                   DbWrite.summariesUpsert n summary] }

/-! ## Compile stage (`src/nodes/compile_book.py`) -/

/-- Join a list of texts with a separator, Python `sep.join(parts)`. -/
def joinSep (sep : Str) : List Str → Str
  | [] => []
  | [x] => x
  | x :: y :: rest => x ++ sep ++ joinSep sep (y :: rest)

/-- The compile precondition of lines 33 to 38 of
`src/nodes/compile_book.py`: the re-read final-review status equals
`no_notes_needed`, or the re-read notes (with `or ""` applied) are truthy
and truthy after stripping. -/
def compileReady (fr_status : Option Str) (fr_notes : Str) : Bool :=
  fr_status = some stNoNotesNeeded ||
    (truthy fr_notes && truthy (pyStrip fr_notes))

/-- `compile_book`: re-check the final-review precondition from the
datastore; when not ready, emit `final_review_not_ready` with no uploads
and no writes.  Otherwise upload TXT and DOCX, then build the paginated
content of lines 98 to 112 — this happens before the `try` block, so a
failure there propagates as an uncaught exception after the TXT and
DOCX uploads but before any datastore write.  When the content builds,
attempt `pdf_doc.build` and the PDF upload inside the `try` (a failure
there is caught), update the book record to output status `ready` with
the DOCX URL, and emit `book_compiled`. -/
def compile_book (env : Env) (s : WState) : Except StageAbort StageOut :=
  let fr_status := env.frStatus
  let fr_notes := orEmpty env.frNotes
  if ¬ compileReady fr_status fr_notes then
    Except.ok { state := { s with event := some evFinalReviewNotReady } }
  else
    let chapters := env.dbChapters
    let titleUsed :=
      if truthyOpt env.dbTitle then orEmpty env.dbTitle else s.title
    let txt_content :=
      titleUsed ++ lit "\n\n" ++
        joinSep (lit "\n\n")
          (chapters.map fun c => c.title ++ lit "\n\n" ++ orEmpty c.content)
    let chapterPairs := chapters.map fun c => (c.title, orEmpty c.content)
    let txt_name := s.book_id ++ lit ".txt"
    let docx_name := s.book_id ++ lit ".docx"
    let pdf_name := s.book_id ++ lit ".pdf"
    let docx_url := env.publicUrl docx_name
    let baseUploads :=
      [Artifact.txt txt_name txt_content,
       Artifact.docx docx_name titleUsed chapterPairs]
    if env.pdfStoryOk = false then
      Except.error { error := CompileError.pdfStoryFailed
                     uploads := baseUploads }
    else
      let uploads := baseUploads ++
        (if env.pdfOk then [Artifact.pdf pdf_name titleUsed chapterPairs]
         else [])
      Except.ok
        { state := { s with
            book_output_status := some (lit "ready")
            event := some evBookCompiled }
          writes := [DbWrite.booksUpdate
            [(lit "book_output_status", DbVal.s (lit "ready")),
             (lit "output_file_url", DbVal.s docx_url)]]
          uploads := uploads }

/-- The uploads performed by a compile invocation, whether it returned
or raised. -/
def compileUploads : Except StageAbort StageOut → List Artifact
  | Except.ok out => out.uploads
  | Except.error e => e.uploads

/-- The datastore writes performed by a compile invocation, whether it
returned or raised. -/
def compileWrites : Except StageAbort StageOut → List DbWrite
  | Except.ok out => out.writes
  | Except.error e => e.writes

/-! ## Notification stage (`src/nodes/notifications.py`) -/

/-- `notify`: no-op when no event is set; otherwise compose subject and
body, send via email and Teams, and insert an audit record.  An
exception escaping `send_email` would propagate, which the `Except`
codomain records; `send_email` never returns one. -/
def notify (env : Env) (s : WState) : Except SmtpError StageOut :=
  if truthyOpt s.event = false then Except.ok { state := s }
  else
    let ev := orEmpty s.event
    let subject := lit "[Book System] Event: " ++ ev
    let body :=
      lit "Event: " ++ ev ++ lit "\nBook ID: " ++ s.book_id ++
        lit "\nTitle: " ++ s.title
    match send_email env.email subject body with
    | Except.error e => Except.error e
    | Except.ok _ =>
        let _teams := send_teams_message env.teams body
        Except.ok { state := s
                    writes := [DbWrite.notificationsInsert ev] }

/-! ## Routers and graph (`src/graph.py`) -/

/-- `_router_after_outline`: after a missing-notes event go to notify;
after anything other than `outline_generated` go to notify; otherwise
re-read the outline gating status from the datastore and branch on it.
The router mutates the state (route reason, refreshed status, event), so
it returns the target name together with the updated state. -/
def router_after_outline (env : Env) (s : WState) : Str × WState :=
  if s.event = some evMissingNotes then
    (lit "notify",
     { s with route_reason := some (lit "outline_missing_notes_before") })
  else if s.event ≠ some evOutlineGenerated then (lit "notify", s)
  else
    let status := env.statusOutline
    let s1 := { s with status_outline_notes := status }
    if status = some stYes then
      (lit "notify", { s1 with event := some evOutlineWaiting })
    else if status = some stNoNotesNeeded then
      (lit "generate_next_chapter", s1)
    else
      (lit "notify", { s1 with event := some evOutlinePausedStatus })

/-- `_router_after_chapter`: pure mapping from the resulting event (and
the chapter index) to the next node name. -/
def router_after_chapter (s : WState) : Str :=
  if s.event = some evWaitingChapterNotes ∨
     s.event = some evPausedChapterStatus then lit "notify"
  else if s.event = some evChapterGenerated then
    if s.current_chapter_number ≤ s.total_chapters then
      lit "generate_next_chapter"
    else lit "compile_book"
  else if s.event = some evAllChaptersDone then lit "compile_book"
  else lit "notify"

/-- `_router_after_compile`: `book_compiled` and `final_review_not_ready`
go to notify; anything else ends the run (`END`, modelled as `none`). -/
def router_after_compile (s : WState) : Option Str :=
  if s.event = some evBookCompiled then some (lit "notify")
  else if s.event = some evFinalReviewNotReady then some (lit "notify")
  else none

/-- The four nodes added to the graph in `build_graph`. -/
inductive Node
  | outline
  | chapter
  | compile
  | notify
deriving DecidableEq, Repr

/-- The conditional-edge dictionary attached to `generate_outline`. -/
def edges_after_outline (name : Str) : Option Node :=
  if name = lit "generate_next_chapter" then some Node.chapter
  else if name = lit "notify" then some Node.notify
  else none

/-- The conditional-edge dictionary attached to `generate_next_chapter`. -/
def edges_after_chapter (name : Str) : Option Node :=
  if name = lit "generate_next_chapter" then some Node.chapter
  else if name = lit "compile_book" then some Node.compile
  else if name = lit "notify" then some Node.notify
  else none

/-- The conditional-edge dictionary attached to `compile_book`. -/
def edges_after_compile (name : Str) : Option Node :=
  if name = lit "notify" then some Node.notify
  else none

/-- Total wrapper for the notify node: `notify` never returns an error
(theorem `notify_never_raises`), so the error branch is unreachable. -/
def notifyStage (env : Env) (s : WState) : StageOut :=
  match notify env s with
  | Except.ok out => out
  | Except.error _ => { state := s }

/-- Execute one node.  Only the compile stage can raise an exception
that propagates out of its node (the paginated-content construction of
lines 98 to 112 is outside the `try` block); the other stages always
return. -/
def runNodeExc (env : Env) : Node → WState → Except StageAbort StageOut
  | Node.outline, s => Except.ok (generate_outline env s)
  | Node.chapter, s => Except.ok (generate_next_chapter env s)
  | Node.compile, s => compile_book env s
  | Node.notify, s => Except.ok (notifyStage env s)

/-- Route from a node on its resulting state: the next node (or `none`
for the end of the run) and the possibly mutated state.  The notify node
has no outgoing edges. -/
def routeFrom (env : Env) : Node → WState → Option Node × WState
  | Node.outline, s =>
      let p := router_after_outline env s
      (edges_after_outline p.1, p.2)
  | Node.chapter, s => (edges_after_chapter (router_after_chapter s), s)
  | Node.compile, s =>
      (match router_after_compile s with
       | some nm => edges_after_compile nm
       | none => none, s)
  | Node.notify, s => (none, s)

/-- Fuel-indexed interpreter for the compiled graph: execute the current
node, route, and continue.  A stage exception ends the invocation at
that node (LangGraph lets it propagate; the worker catches it at the
per-book boundary), so the trace stops there with the in-memory state
at the raise point.  Returns the ordered trace of executed nodes and
the final state, or `none` when the fuel runs out. -/
def run (env : Env) : Nat → Node → WState → Option (List Node × WState)
  | 0, _, _ => none
  | fuel + 1, node, s =>
      match runNodeExc env node s with
      | Except.error _ => some ([node], s)
      | Except.ok out =>
          match routeFrom env node out.state with
          | (some next, s2) =>
              match run env fuel next s2 with
              | some (tr, sf) => some (node :: tr, sf)
              | none => none
          | (none, s2) => some ([node], s2)

/-! ## Gating outcomes at the three gates -/

/-- The three-way outcome of a gating check. -/
inductive GateOutcome
  | proceed
  | wait_for_input
  | paused_unrecognized
deriving DecidableEq, Repr

/-- Modelled from the spec: the gating policy contract of section 4.1,
stated as `no_notes_needed` to proceed, `yes` to wait_for_input, and any
other value including empty and absent to paused_unrecognized. -/
def gatingPolicySpec (v : Option Str) : GateOutcome :=
  if v = some stNoNotesNeeded then GateOutcome.proceed
  else if v = some stYes then GateOutcome.wait_for_input
  else GateOutcome.paused_unrecognized

/-- The branch structure of `_router_after_outline` (lines 77 to 88 of
`src/graph.py`) on the re-read status: `yes` waits, `no_notes_needed`
proceeds, anything else pauses. -/
def outlineGateOutcome (v : Option Str) : GateOutcome :=
  if v = some stYes then GateOutcome.wait_for_input
  else if v = some stNoNotesNeeded then GateOutcome.proceed
  else GateOutcome.paused_unrecognized

/-- The branch structure of `generate_next_chapter` (lines 101 to 111 of
`src/nodes/chapters.py`) on the chapter status: `yes` waits, any value
that is neither `None` nor `no_notes_needed` pauses, and `None` or
`no_notes_needed` proceeds. -/
def chapterGateOutcome (v : Option Str) : GateOutcome :=
  if v = some stYes then GateOutcome.wait_for_input
  else if v ≠ none ∧ v ≠ some stNoNotesNeeded then
    GateOutcome.paused_unrecognized
  else GateOutcome.proceed

/-! ## Spreadsheet sync (`src/sync_excel.py`) and worker discovery -/

/-- Lookup in a header-keyed dictionary (first match; keys are unique in
the dictionaries built below because `dinsert` overwrites). -/
def dget (d : List (Str × Str)) (k : Str) : Option Str :=
  (d.find? fun p => p.1 == k).map Prod.snd

/-- Dictionary insert with Python overwrite semantics. -/
def dinsert (k v : Str) (d : List (Str × Str)) : List (Str × Str) :=
  (k, v) :: d.filter fun p => !(p.1 == k)

/-- Lookup in the typed upsert payload. -/
def dgetV (d : List (Str × DbVal)) (k : Str) : Option DbVal :=
  (d.find? fun p => p.1 == k).map Prod.snd

/-- Normalisation of one spreadsheet cell: `None` becomes the empty
string, otherwise `value.strip() if value else ""`. -/
def cellValue (v : Option Str) : Str :=
  match v with
  | none => []
  | some s => if truthy s then pyStrip s else []

/-- The header-to-value dictionary built by the loop in
`excel_row_to_book_dict`: headers beyond the row length map to the empty
string. -/
def buildBook (headers : List Str) (row : List (Option Str)) :
    List (Str × Str) :=
  headers.enum.foldl
    (fun d p => dinsert p.2 (cellValue ((row.get? p.1).getD none)) d) []

/-- `excel_row_to_book_dict` of `src/sync_excel.py`: `None` for a row
whose title is falsy. -/
def excel_row_to_book_dict (row : List (Option Str))
    (headers : List Str) : Option (List (Str × Str)) :=
  if truthyOpt (dget (buildBook headers row) (lit "title")) = false
  then none
  else some (buildBook headers row)

/-- Keywords that mark a template description row to be skipped. -/
def placeholderKeywords : List Str :=
  [lit "required", lit "optional", lit "default:", lit "yes/no"]

/-- The optional columns copied into the upsert payload when truthy. -/
def optionalSyncFields : List Str :=
  [lit "notes_on_outline_after", lit "status_outline_notes",
   lit "chapter_notes_status", lit "final_review_notes_status",
   lit "final_review_notes"]

/-- One step of the optional-fields loop of `sync_excel_to_supabase`:
copy the field into the payload when it is present and truthy. -/
def addOptionalField (book : List (Str × Str)) (d : List (Str × DbVal))
    (f : Str) : List (Str × DbVal) :=
  match dget book f with
  | some v => if truthy v then d ++ [(f, DbVal.s v)] else d
  | none => d

/-- One default of `sync_excel_to_supabase`: set `k` to `v` when the
payload does not contain `k` yet. -/
def withDefault (k : Str) (v : DbVal) (d : List (Str × DbVal)) :
    List (Str × DbVal) :=
  if (dgetV d k).isNone then d ++ [(k, v)] else d

/-- The upsert payload built for one row (lines 136 to 164 of
`src/sync_excel.py`): title, pre-outline notes and row id, then each
truthy optional field, then the defaults for any gating field still
absent. -/
def upsertData (book : List (Str × Str)) (title : Str)
    (sheet_row_id : Nat) : List (Str × DbVal) :=
  let d :=
    [(lit "title", DbVal.s title),
     (lit "notes_on_outline_before",
      DbVal.s ((dget book (lit "notes_on_outline_before")).getD [])),
     (lit "sheet_row_id", DbVal.n sheet_row_id)]
  let d := optionalSyncFields.foldl (addOptionalField book) d
  let d := withDefault (lit "status_outline_notes")
    (DbVal.s stNoNotesNeeded) d
  let d := withDefault (lit "chapter_notes_status")
    (DbVal.s stNoNotesNeeded) d
  let d := withDefault (lit "final_review_notes_status")
    (DbVal.s stNoNotesNeeded) d
  let d := withDefault (lit "outline_status") (DbVal.s (lit "pending")) d
  let d := withDefault (lit "book_output_status")
    (DbVal.s (lit "not_started")) d
  d

/-- One iteration of the row loop of `sync_excel_to_supabase` (lines 90
to 170): skip empty rows, rows without a title, and template description
rows; resolve the sheet row id; return the upsert payload. -/
def processRow (headers : List Str) (idx : Nat)
    (row : List (Option Str)) : Option (List (Str × DbVal)) :=
  if row.all (fun c => truthyOpt c = false) then none
  else
    match excel_row_to_book_dict row headers with
    | none => none
    | some book =>
        if truthy ((dget book (lit "title")).getD []) = false then none
        else if placeholderKeywords.any (fun kw =>
            containsSub kw (pyLower ((dget book (lit "title")).getD [])))
          then none
        else
          some (upsertData book ((dget book (lit "title")).getD [])
            (if truthy ((dget book (lit "sheet_row_id")).getD []) &&
                !(pyStrip ((dget book (lit "sheet_row_id")).getD
                  [])).isEmpty &&
                (pyStrip ((dget book (lit "sheet_row_id")).getD
                  [])).all isDigitChar then
              digitsToNat (pyStrip ((dget book (lit "sheet_row_id")).getD
                []))
            else idx))

/-- The first discovery filter of `find_pending_books` in `worker.py`
(lines 29 to 36): `outline_status` equals `pending` and
`notes_on_outline_before` is not null. -/
def pendingOutlineFilter (outline_status : Option Str)
    (notes_on_outline_before : Option Str) : Bool :=
  outline_status = some (lit "pending") && notes_on_outline_before.isSome

/-- Whether a freshly upserted record satisfies the first discovery
filter of the worker. -/
def upsertEligiblePendingOutline (d : List (Str × DbVal)) : Bool :=
  pendingOutlineFilter
    (match dgetV d (lit "outline_status") with
     | some (DbVal.s v) => some v
     | _ => none)
    (match dgetV d (lit "notes_on_outline_before") with
     | some (DbVal.s v) => some v
     | _ => none)

/-! ## Spec-side definitions for the chapter-splitting claim -/

/-- Modelled from the spec: the chapter body for a model reply, the
trimmed text before the first occurrence of the marker, or the full
trimmed text when the marker is absent. -/
def specChapterBody (t : Str) : Str :=
  match splitFirst markerSummary t with
  | some p => pyStrip p.1
  | none => pyStrip t

/-- Modelled from the spec: the chapter summary for a model reply, the
trimmed text after the first occurrence of the marker, or the fixed
placeholder when the marker is absent. -/
def specChapterSummary (t : Str) : Str :=
  match splitFirst markerSummary t with
  | some p => pyStrip p.2
  | none => summaryPlaceholder

/-! ## Sample inputs used by witness theorems -/

/-- A concrete environment for witness instantiations. -/
def sampleEnv : Env :=
  { chapterCount := 2
    outlineText := lit " 1. Start. 2. Finish. "
    statusOutline := some stNoNotesNeeded
    chapterRow := fun _ => none
    chapterText := fun _ => lit "Body text. Summary: A short summary."
    summariesLoad := fun _ => some []
    frStatus := some stNoNotesNeeded
    frNotes := none
    dbTitle := some (lit "A Book")
    dbChapters := [⟨lit "Chapter 1", some (lit "Body text.")⟩,
                   ⟨lit "Chapter 2", some (lit "More text.")⟩]
    pdfStoryOk := true
    pdfOk := true
    publicUrl := fun name => lit "storage/" ++ name
    email := { smtpHost := none, smtpUser := none, smtpPass := none,
               notifyTo := none, smtpFailure := none }
    teams := { webhookUrl := none, postOk := true } }

/-- A concrete book row for witness instantiations. -/
def sampleBook : BookRow :=
  { id := lit "b1"
    title := lit "A Book"
    notes_on_outline_before := some (lit "please write") }

/-- The sample environment with a failing paginated-content
construction: the title or chapter text makes `Paragraph` raise at
lines 98 to 112 of `src/nodes/compile_book.py`, outside the `try`. -/
def pdfStoryFailEnv : Env := { sampleEnv with pdfStoryOk := false }

/-- Concrete spreadsheet headers for witness instantiations. -/
def sampleHeaders : List Str :=
  [lit "title", lit "notes_on_outline_before", lit "chapter_notes_status"]

/-- A concrete spreadsheet row with an empty gating cell. -/
def sampleRow : List (Option Str) :=
  [some (lit "My Book"), some (lit "Write about tests"), some []]

/-- The upsert payload produced for `sampleRow`. -/
def sampleUpsert : List (Str × DbVal) :=
  [(lit "title", DbVal.s (lit "My Book")),
   (lit "notes_on_outline_before", DbVal.s (lit "Write about tests")),
   (lit "sheet_row_id", DbVal.n 3),
   (lit "status_outline_notes", DbVal.s stNoNotesNeeded),
   (lit "chapter_notes_status", DbVal.s stNoNotesNeeded),
   (lit "final_review_notes_status", DbVal.s stNoNotesNeeded),
   (lit "outline_status", DbVal.s (lit "pending")),
   (lit "book_output_status", DbVal.s (lit "not_started"))]

/-! ## Helper lemmas -/

theorem pyStrip_nil : pyStrip [] = [] := rfl

theorem compileReady_iff (st : Option Str) (notes : Str) :
    compileReady st notes = true ↔
      (st = some stNoNotesNeeded ∨ pyStrip notes ≠ []) := by
  have hnotes : pyStrip notes ≠ [] → notes ≠ [] := by
    intro h he
    exact h (he ▸ pyStrip_nil)
  have hIs : ∀ l : Str, (!l.isEmpty) = true ↔ l ≠ [] := by
    intro l
    cases l <;> simp
  simp only [compileReady, truthy, Bool.or_eq_true, decide_eq_true_eq,
    Bool.and_eq_true, hIs]
  constructor
  · rintro (h | ⟨h1, h2⟩)
    · exact Or.inl h
    · exact Or.inr h2
  · rintro (h | h)
    · exact Or.inl h
    · exact Or.inr ⟨hnotes h, h⟩

theorem backfillSummaries_current (env : Env) (s : WState) :
    (backfillSummaries env s).current_chapter_number =
      s.current_chapter_number := by
  unfold backfillSummaries
  repeat' split
  all_goals rfl

theorem backfillSummaries_total (env : Env) (s : WState) :
    (backfillSummaries env s).total_chapters = s.total_chapters := by
  unfold backfillSummaries
  repeat' split
  all_goals rfl

theorem backfillSummaries_event (env : Env) (s : WState) :
    (backfillSummaries env s).event = s.event := by
  unfold backfillSummaries
  repeat' split
  all_goals rfl

/-! ## Claim C1: the gating mapping at the three gates -/

/-- C1, counterexample: the claimed uniform mapping sends an absent
status to paused_unrecognized, but the chapter gate (lines 101 to 111 of
`src/nodes/chapters.py`) lets an absent status proceed, so the mapping is
not identical at all three gates. -/
theorem c1_counterexample :
    chapterGateOutcome none = GateOutcome.proceed ∧
    gatingPolicySpec none = GateOutcome.paused_unrecognized ∧
    ¬ chapterGateOutcome none = gatingPolicySpec none := by decide

/-- C1 as amended: the outline gate follows the claimed three-way mapping
exactly; the chapter gate follows it except that an absent (`None`)
status proceeds; the compile gate is a two-way check that proceeds
exactly when the status equals `no_notes_needed` or the trimmed notes
are non-empty. -/
theorem c1_gating_amended :
    (∀ v, outlineGateOutcome v = gatingPolicySpec v) ∧
    (∀ env s, s.event = some evOutlineGenerated →
        (router_after_outline env s).1 =
          (match outlineGateOutcome env.statusOutline with
           | GateOutcome.proceed => lit "generate_next_chapter"
           | GateOutcome.wait_for_input => lit "notify"
           | GateOutcome.paused_unrecognized => lit "notify")) ∧
    (∀ v, chapterGateOutcome v =
        if v = none then GateOutcome.proceed else gatingPolicySpec v) ∧
    (∀ env s, ¬ s.total_chapters < s.current_chapter_number →
        (generate_next_chapter env s).state.event = some
          (match chapterGateOutcome
              (match env.chapterRow s.current_chapter_number with
               | some r => r.chapter_notes_status
               | none => none) with
           | GateOutcome.wait_for_input => evWaitingChapterNotes
           | GateOutcome.paused_unrecognized => evPausedChapterStatus
           | GateOutcome.proceed => evChapterGenerated)) ∧
    (∀ st notes, compileReady st (orEmpty notes) = true ↔
        (st = some stNoNotesNeeded ∨ pyStrip (orEmpty notes) ≠ [])) := by
  refine ⟨?_, ?_, ?_, ?_, fun st notes => compileReady_iff st (orEmpty notes)⟩
  · intro v
    unfold outlineGateOutcome gatingPolicySpec
    by_cases h1 : v = some stYes
    · subst h1; decide
    · by_cases h2 : v = some stNoNotesNeeded
      · subst h2; decide
      · simp [h1, h2]
  · intro env s h
    have h1 : ¬ s.event = some evMissingNotes := by rw [h]; decide
    have h2 : ¬ s.event ≠ some evOutlineGenerated := by simp [h]
    unfold router_after_outline outlineGateOutcome
    rw [if_neg h1, if_neg h2]
    have hne : ¬ stNoNotesNeeded = stYes := by decide
    by_cases h3 : env.statusOutline = some stYes
    · simp [h3]
    · by_cases h4 : env.statusOutline = some stNoNotesNeeded
      · simp [h3, h4, hne]
      · simp [h3, h4]
  · intro v
    unfold chapterGateOutcome gatingPolicySpec
    by_cases h1 : v = some stYes
    · subst h1; decide
    · by_cases h0 : v = none
      · subst h0; decide
      · by_cases h2 : v = some stNoNotesNeeded
        · subst h2; decide
        · simp [h0, h1, h2]
  · intro env s h
    unfold generate_next_chapter
    rw [if_neg h]
    rcases hrow : env.chapterRow s.current_chapter_number with _ | r
    all_goals simp only [hrow]
    · simp [chapterGateOutcome]
    · by_cases h1 : r.chapter_notes_status = some stYes
      · simp [chapterGateOutcome, h1]
      · have hne : ¬ stNoNotesNeeded = stYes := by decide
        by_cases h2 : r.chapter_notes_status = none
        · simp [chapterGateOutcome, h1, h2]
        · by_cases h3 : r.chapter_notes_status = some stNoNotesNeeded
          · simp [chapterGateOutcome, h1, h2, h3, hne]
          · simp [chapterGateOutcome, h1, h2, h3]

/-- C1 witness: with the re-read outline status `no_notes_needed`, the
outline router proceeds to the chapter stage. -/
theorem c1_gating_amended_witness :
    (router_after_outline sampleEnv
      ({ book_id := lit "b", title := lit "t",
         notes_on_outline_before := some (lit "n"),
         event := some evOutlineGenerated })).1 =
      lit "generate_next_chapter" := by
  have h := c1_gating_amended.2.1 sampleEnv
    ({ book_id := lit "b", title := lit "t",
       notes_on_outline_before := some (lit "n"),
       event := some evOutlineGenerated }) rfl
  rw [h]
  decide

/-! ## Claim C6: the chapter router mapping -/

/-- C6: the chapter router sends the two waiting and paused events to
notification, loops `chapter_generated` back to the chapter stage while
the index is at most the total and otherwise goes to compile,
sends `all_chapters_done` to compile, and sends every other event to
notification; the graph edge dictionary maps those names to the
corresponding nodes. -/
theorem c6_router_after_chapter (s : WState) :
    (s.event = some evWaitingChapterNotes →
        router_after_chapter s = lit "notify") ∧
    (s.event = some evPausedChapterStatus →
        router_after_chapter s = lit "notify") ∧
    (s.event = some evChapterGenerated →
        (s.current_chapter_number ≤ s.total_chapters →
            router_after_chapter s = lit "generate_next_chapter") ∧
        (s.total_chapters < s.current_chapter_number →
            router_after_chapter s = lit "compile_book")) ∧
    (s.event = some evAllChaptersDone →
        router_after_chapter s = lit "compile_book") ∧
    (s.event ≠ some evWaitingChapterNotes →
     s.event ≠ some evPausedChapterStatus →
     s.event ≠ some evChapterGenerated →
     s.event ≠ some evAllChaptersDone →
        router_after_chapter s = lit "notify") ∧
    edges_after_chapter (lit "notify") = some Node.notify ∧
    edges_after_chapter (lit "generate_next_chapter") = some Node.chapter ∧
    edges_after_chapter (lit "compile_book") = some Node.compile := by
  refine ⟨fun h => ?_, fun h => ?_,
    fun h => ⟨fun hc => ?_, fun hc => ?_⟩, fun h => ?_,
    fun h1 h2 h3 h4 => ?_, by decide, by decide, by decide⟩
  · unfold router_after_chapter
    rw [if_pos (Or.inl h)]
  · unfold router_after_chapter
    rw [if_pos (Or.inr h)]
  · unfold router_after_chapter
    have hno : ¬ (s.event = some evWaitingChapterNotes ∨
        s.event = some evPausedChapterStatus) := by rw [h]; decide
    rw [if_neg hno, if_pos h, if_pos hc]
  · unfold router_after_chapter
    have hno : ¬ (s.event = some evWaitingChapterNotes ∨
        s.event = some evPausedChapterStatus) := by rw [h]; decide
    rw [if_neg hno, if_pos h, if_neg (Nat.not_le_of_lt hc)]
  · unfold router_after_chapter
    have hno : ¬ (s.event = some evWaitingChapterNotes ∨
        s.event = some evPausedChapterStatus) := by rw [h]; decide
    have hcg : ¬ s.event = some evChapterGenerated := by rw [h]; decide
    rw [if_neg hno, if_neg hcg, if_pos h]
  · unfold router_after_chapter
    have hno : ¬ (s.event = some evWaitingChapterNotes ∨
        s.event = some evPausedChapterStatus) := by
      rintro (hh | hh)
      exacts [h1 hh, h2 hh]
    rw [if_neg hno, if_neg h3, if_neg h4]

/-- C6 witness: at index 2 of 3 the event `chapter_generated` loops back
to the chapter stage. -/
theorem c6_router_after_chapter_witness :
    router_after_chapter
      ({ book_id := lit "b", title := lit "t",
         notes_on_outline_before := none, event := some evChapterGenerated,
         current_chapter_number := 2, total_chapters := 3 }) =
      lit "generate_next_chapter" :=
  ((c6_router_after_chapter _).2.2.1 rfl).1 (by decide)

/-! ## Claim C3: the compile precondition -/

/-- C3: the compile stage produces output files exactly when the
final-review status re-read from the datastore equals `no_notes_needed`
or the re-read final-review notes are non-empty after trimming; when
neither holds its result is exactly the `final_review_not_ready` event
with no uploads, no writes and no model call; it returns normally with
`book_compiled` — and only then writes to the datastore — exactly when
the precondition holds and the paginated-content construction does not
raise. -/
theorem c3_compile_precondition (env : Env) (s : WState) :
    (¬ compileUploads (compile_book env s) = [] ↔
        (env.frStatus = some stNoNotesNeeded ∨
         pyStrip (orEmpty env.frNotes) ≠ [])) ∧
    ((compile_book env s =
        Except.ok { state := { s with
          event := some evFinalReviewNotReady } }) ↔
      ¬ (env.frStatus = some stNoNotesNeeded ∨
         pyStrip (orEmpty env.frNotes) ≠ [])) ∧
    ((∃ out, compile_book env s = Except.ok out ∧
        out.state.event = some evFinalReviewNotReady) ↔
      ¬ (env.frStatus = some stNoNotesNeeded ∨
         pyStrip (orEmpty env.frNotes) ≠ [])) ∧
    ((∃ out, compile_book env s = Except.ok out ∧
        out.state.event = some evBookCompiled) ↔
      ((env.frStatus = some stNoNotesNeeded ∨
        pyStrip (orEmpty env.frNotes) ≠ []) ∧ env.pdfStoryOk = true)) ∧
    (¬ compileWrites (compile_book env s) = [] ↔
      ((env.frStatus = some stNoNotesNeeded ∨
        pyStrip (orEmpty env.frNotes) ≠ []) ∧ env.pdfStoryOk = true)) := by
  by_cases hr : compileReady env.frStatus (orEmpty env.frNotes) = true
  · have hp := (compileReady_iff env.frStatus (orEmpty env.frNotes)).mp hr
    unfold compile_book
    rw [if_neg (by simp [hr])]
    by_cases hst : env.pdfStoryOk = false
    · rw [if_pos hst]
      refine ⟨iff_of_true (by simp [compileUploads]) hp, ?_, ?_, ?_, ?_⟩
      · exact iff_of_false (by simp) (fun hn => hn hp)
      · refine iff_of_false ?_ (fun hn => hn hp)
        rintro ⟨out, hout, _⟩
        exact absurd hout (by simp)
      · refine iff_of_false ?_ ?_
        · rintro ⟨out, hout, _⟩
          exact absurd hout (by simp)
        · rintro ⟨_, hth⟩
          rw [hst] at hth
          exact absurd hth (by decide)
      · refine iff_of_false (by simp [compileWrites]) ?_
        rintro ⟨_, hth⟩
        rw [hst] at hth
        exact absurd hth (by decide)
    · have hst2 : env.pdfStoryOk = true := by
        cases hb : env.pdfStoryOk
        · exact absurd hb hst
        · rfl
      rw [if_neg hst]
      refine ⟨iff_of_true (by simp [compileUploads]) hp, ?_, ?_, ?_, ?_⟩
      · refine iff_of_false ?_ (fun hn => hn hp)
        intro he
        have h1 := Except.ok.inj he
        have h2 := congrArg (fun o => o.state.event) h1
        have h3 : some evBookCompiled = some evFinalReviewNotReady := h2
        exact absurd (Option.some.inj h3) (by decide)
      · refine iff_of_false ?_ (fun hn => hn hp)
        rintro ⟨out, hout, hev⟩
        have h1 := Except.ok.inj hout
        rw [← h1] at hev
        have h3 : some evBookCompiled = some evFinalReviewNotReady := hev
        exact absurd (Option.some.inj h3) (by decide)
      · exact iff_of_true ⟨_, rfl, rfl⟩ ⟨hp, hst2⟩
      · exact iff_of_true (by simp [compileWrites]) ⟨hp, hst2⟩
  · have hp : ¬ (env.frStatus = some stNoNotesNeeded ∨
        pyStrip (orEmpty env.frNotes) ≠ []) :=
      fun hh =>
        hr ((compileReady_iff env.frStatus (orEmpty env.frNotes)).mpr hh)
    unfold compile_book
    rw [if_pos (by simpa using hr)]
    refine ⟨?_, iff_of_true rfl hp, iff_of_true ⟨_, rfl, rfl⟩ hp, ?_, ?_⟩
    · exact iff_of_false (by simp [compileUploads]) hp
    · refine iff_of_false ?_ (fun hh => hp hh.1)
      rintro ⟨out, hout, hev⟩
      have h1 := Except.ok.inj hout
      rw [← h1] at hev
      have h3 : some evFinalReviewNotReady = some evBookCompiled := hev
      exact absurd (Option.some.inj h3) (by decide)
    · exact iff_of_false (by simp [compileWrites]) (fun hh => hp hh.1)

/-! ## Claim C7: the outline stage with missing pre-notes -/

/-- C7: when the outline-request notes are empty or absent, the outline
stage emits `missing_notes_on_outline_before`, makes no model call and no
datastore write, and the outline router routes straight to notification. -/
theorem c7_outline_missing_notes (env : Env) (s : WState)
    (h : truthyOpt s.notes_on_outline_before = false) :
    (generate_outline env s).state.event = some evMissingNotes ∧
    (generate_outline env s).llmCalls = 0 ∧
    (generate_outline env s).writes = [] ∧
    (generate_outline env s).uploads = [] ∧
    (router_after_outline env (generate_outline env s).state).1 =
      lit "notify" ∧
    edges_after_outline
        (router_after_outline env (generate_outline env s).state).1 =
      some Node.notify := by
  unfold generate_outline
  rw [if_pos h]
  refine ⟨rfl, rfl, rfl, rfl, ?_, ?_⟩
  · unfold router_after_outline
    rw [if_pos rfl]
  · unfold router_after_outline
    rw [if_pos rfl]
    show edges_after_outline (lit "notify") = some Node.notify
    decide

/-- C7 witness: a book with empty pre-outline notes. -/
theorem c7_outline_missing_notes_witness :
    (generate_outline sampleEnv
      ({ book_id := lit "b", title := lit "t",
         notes_on_outline_before := some [] })).state.event =
      some evMissingNotes :=
  (c7_outline_missing_notes sampleEnv
    ({ book_id := lit "b", title := lit "t",
       notes_on_outline_before := some [] }) (by decide)).1

/-! ## Claim C8: which PDF failures the compile stage tolerates -/

/-- C8, counterexample: the `try` of `src/nodes/compile_book.py` starts
only at line 114, so a failure while constructing the paginated content
(lines 98 to 112 — `Paragraph` parsing of unescaped chapter text with
injected line-break markup) is not caught: with the final-review
precondition satisfied, the stage raises instead of completing, with no
datastore write, no `ready` update and no `book_compiled` event. -/
theorem c8_counterexample :
    compileReady pdfStoryFailEnv.frStatus
      (orEmpty pdfStoryFailEnv.frNotes) = true ∧
    (compile_book pdfStoryFailEnv
      (load_initial_state sampleBook)).isOk = false ∧
    compileWrites (compile_book pdfStoryFailEnv
      (load_initial_state sampleBook)) = [] := by decide

/-- C8 as amended: when the compile precondition holds and the
paginated-content construction succeeds, a failure of `pdf_doc.build`
or of the PDF upload inside the `try` block is caught, and the run
still completes: the book record is updated to `ready` with the DOCX
URL as primary output, `book_compiled` is emitted, and the PDF artifact
is present exactly when that step succeeds.  A failure while
constructing the paginated content, however, happens outside the `try`
and propagates: the stage raises after the TXT and DOCX uploads, with
no datastore write and no PDF artifact, and the run aborts. -/
theorem c8_pdf_failure_tolerated (env : Env) (s : WState)
    (h : env.frStatus = some stNoNotesNeeded ∨
         pyStrip (orEmpty env.frNotes) ≠ []) :
    (env.pdfStoryOk = true →
      ∃ out, compile_book env s = Except.ok out ∧
        out.state.event = some evBookCompiled ∧
        out.state.book_output_status = some (lit "ready") ∧
        out.writes = [DbWrite.booksUpdate
          [(lit "book_output_status", DbVal.s (lit "ready")),
           (lit "output_file_url",
            DbVal.s (env.publicUrl (s.book_id ++ lit ".docx")))]] ∧
        ((∃ n t c, Artifact.pdf n t c ∈ out.uploads) ↔
          env.pdfOk = true)) ∧
    (env.pdfStoryOk = false →
      ∃ e, compile_book env s = Except.error e ∧
        e.error = CompileError.pdfStoryFailed ∧
        e.writes = [] ∧
        (∀ n t c, ¬ Artifact.pdf n t c ∈ e.uploads)) := by
  have hr : compileReady env.frStatus (orEmpty env.frNotes) = true :=
    (compileReady_iff env.frStatus (orEmpty env.frNotes)).mpr h
  unfold compile_book
  rw [if_neg (by simp [hr])]
  constructor
  · intro hst
    have hst2 : ¬ env.pdfStoryOk = false := by
      rw [hst]
      decide
    rw [if_neg hst2]
    refine ⟨_, rfl, rfl, rfl, rfl, ?_⟩
    by_cases hp : env.pdfOk = true
    · simp [hp]
    · simp [hp]
  · intro hst
    rw [if_pos hst]
    refine ⟨_, rfl, rfl, rfl, ?_⟩
    intro n t c hm
    simp at hm

/-- C8 witness: with the precondition satisfied, a successful content
construction and a failing `try` block, compilation still returns with
`book_compiled`; the same environment with a failing content
construction raises. -/
theorem c8_pdf_failure_tolerated_witness :
    (∃ out, compile_book ({ sampleEnv with pdfOk := false })
        (load_initial_state sampleBook) = Except.ok out ∧
      out.state.event = some evBookCompiled ∧
      out.state.book_output_status = some (lit "ready") ∧
      out.writes = [DbWrite.booksUpdate
        [(lit "book_output_status", DbVal.s (lit "ready")),
         (lit "output_file_url",
          DbVal.s (({ sampleEnv with pdfOk := false } : Env).publicUrl
            ((load_initial_state sampleBook).book_id ++
              lit ".docx")))]] ∧
      ((∃ n t c, Artifact.pdf n t c ∈ out.uploads) ↔
        ({ sampleEnv with pdfOk := false } : Env).pdfOk = true)) ∧
    (∃ e, compile_book pdfStoryFailEnv
        (load_initial_state sampleBook) = Except.error e ∧
      e.error = CompileError.pdfStoryFailed ∧ e.writes = []) := by
  constructor
  · exact (c8_pdf_failure_tolerated ({ sampleEnv with pdfOk := false })
      (load_initial_state sampleBook) (Or.inl rfl)).1 rfl
  · obtain ⟨e, he, herr, hw, _⟩ :=
      (c8_pdf_failure_tolerated pdfStoryFailEnv
        (load_initial_state sampleBook) (Or.inl rfl)).2 rfl
    exact ⟨e, he, herr, hw⟩

/-! ## Claim C9: the email sender never propagates an exception -/

theorem send_email_ok (env : EmailEnv) (subject body : Str) :
    ∃ r, send_email env subject body = Except.ok r := by
  unfold send_email smtpSessionRaw
  by_cases hc : (truthyOpt env.smtpHost = true ∧ truthyOpt env.smtpUser = true ∧
      truthyOpt env.smtpPass = true ∧ truthyOpt env.notifyTo = true)
  · rw [if_neg (not_not_intro hc)]
    cases hf : env.smtpFailure with
    | none => exact ⟨_, rfl⟩
    | some e => cases e <;> exact ⟨_, rfl⟩
  · rw [if_pos hc]
    exact ⟨_, rfl⟩

theorem notify_never_raises (env : Env) (s : WState) :
    (notify env s).isOk = true := by
  by_cases he : truthyOpt s.event = false
  · simp only [notify]
    rw [if_pos he]
    rfl
  · obtain ⟨r, hr⟩ := send_email_ok env.email
      (lit "[Book System] Event: " ++ orEmpty s.event)
      (lit "Event: " ++ orEmpty s.event ++ lit "\nBook ID: " ++ s.book_id ++
        lit "\nTitle: " ++ s.title)
    simp only [notify]
    rw [if_neg he, hr]
    rfl

/-- C9: the email sender never propagates an exception: for every
subject and body it returns normally, as an immediate no-op exactly when
some SMTP configuration variable is missing, and with the failure merely
logged when the SMTP session fails; consequently the notification stage
never aborts because of email. -/
theorem c9_email_never_propagates :
    (∀ env subject body, ∃ r, send_email env subject body = Except.ok r) ∧
    (∀ env subject body,
        (send_email env subject body =
            Except.ok EmailOutcome.skippedNotConfigured ↔
          ¬ (truthyOpt env.smtpHost = true ∧ truthyOpt env.smtpUser = true ∧
             truthyOpt env.smtpPass = true ∧
             truthyOpt env.notifyTo = true))) ∧
    (∀ env s, (notify env s).isOk = true) := by
  refine ⟨fun env subject body => send_email_ok env subject body, ?_,
    fun env s => notify_never_raises env s⟩
  intro env subject body
  unfold send_email smtpSessionRaw
  by_cases hc : (truthyOpt env.smtpHost = true ∧ truthyOpt env.smtpUser = true ∧
      truthyOpt env.smtpPass = true ∧ truthyOpt env.notifyTo = true)
  · rw [if_neg (not_not_intro hc)]
    cases hf : env.smtpFailure with
    | none => simp [hc]
    | some e => cases e <;> simp [hc]
  · rw [if_pos hc]
    simp [hc]

/-! ## Claim C4: the chapter index invariant -/

theorem gnc_total (env : Env) (s : WState) :
    (generate_next_chapter env s).state.total_chapters =
      s.total_chapters := by
  simp only [generate_next_chapter]
  by_cases h : s.total_chapters < s.current_chapter_number
  · rw [if_pos h]
  · rw [if_neg h]
    generalize (match env.chapterRow s.current_chapter_number with
      | some r => r.chapter_notes_status
      | none => none) = st
    by_cases h1 : st = some stYes
    · rw [if_pos h1]
      exact backfillSummaries_total env s
    · rw [if_neg h1]
      by_cases h2 : (¬ st = none ∧ ¬ st = some stNoNotesNeeded)
      · rw [if_pos h2]
        exact backfillSummaries_total env s
      · rw [if_neg h2]
        exact backfillSummaries_total env s

theorem gnc_event_current (env : Env) (s : WState) :
    ((generate_next_chapter env s).state.event = some evChapterGenerated ∧
     (generate_next_chapter env s).state.current_chapter_number =
       s.current_chapter_number + 1 ∧
     ¬ s.total_chapters < s.current_chapter_number) ∨
    ((generate_next_chapter env s).state.event ≠ some evChapterGenerated ∧
     (generate_next_chapter env s).state.current_chapter_number =
       s.current_chapter_number) := by
  simp only [generate_next_chapter]
  by_cases h : s.total_chapters < s.current_chapter_number
  · rw [if_pos h]
    refine Or.inr ⟨?_, rfl⟩
    intro he
    have hne : ¬ evAllChaptersDone = evChapterGenerated := by decide
    exact hne (Option.some.inj he)
  · rw [if_neg h]
    generalize (match env.chapterRow s.current_chapter_number with
      | some r => r.chapter_notes_status
      | none => none) = st
    by_cases h1 : st = some stYes
    · rw [if_pos h1]
      refine Or.inr ⟨?_, backfillSummaries_current env s⟩
      intro he
      have hne : ¬ evWaitingChapterNotes = evChapterGenerated := by decide
      exact hne (Option.some.inj he)
    · rw [if_neg h1]
      by_cases h2 : (¬ st = none ∧ ¬ st = some stNoNotesNeeded)
      · rw [if_pos h2]
        refine Or.inr ⟨?_, backfillSummaries_current env s⟩
        intro he
        have hne : ¬ evPausedChapterStatus = evChapterGenerated := by decide
        exact hne (Option.some.inj he)
      · rw [if_neg h2]
        exact Or.inl ⟨rfl, rfl, h⟩

theorem gnc_allDone_iff (env : Env) (s : WState) :
    ((generate_next_chapter env s).state.event = some evAllChaptersDone ↔
      s.total_chapters < s.current_chapter_number) := by
  simp only [generate_next_chapter]
  by_cases h : s.total_chapters < s.current_chapter_number
  · rw [if_pos h]
    exact iff_of_true rfl h
  · rw [if_neg h]
    generalize (match env.chapterRow s.current_chapter_number with
      | some r => r.chapter_notes_status
      | none => none) = st
    by_cases h1 : st = some stYes
    · rw [if_pos h1]
      refine iff_of_false ?_ h
      intro he
      exact (by decide : ¬ evWaitingChapterNotes = evAllChaptersDone)
        (Option.some.inj he)
    · rw [if_neg h1]
      by_cases h2 : (¬ st = none ∧ ¬ st = some stNoNotesNeeded)
      · rw [if_pos h2]
        refine iff_of_false ?_ h
        intro he
        exact (by decide : ¬ evPausedChapterStatus = evAllChaptersDone)
          (Option.some.inj he)
      · rw [if_neg h2]
        refine iff_of_false ?_ h
        intro he
        exact (by decide : ¬ evChapterGenerated = evAllChaptersDone)
          (Option.some.inj he)

/-- C4: in every run the chapter index starts at `1`; one execution of
the chapter stage preserves the total, never decreases the index, raises
it by at most one, raises it by exactly one precisely when the stage
ends with `chapter_generated`, emits `all_chapters_done` precisely when
the index already exceeds the total (leaving the index unchanged), and
never takes the index beyond the maximum of the prior index and the
total plus one. -/
theorem c4_chapter_index_monotone :
    (∀ book, (load_initial_state book).current_chapter_number = 1) ∧
    (∀ env s,
      (generate_next_chapter env s).state.total_chapters =
        s.total_chapters ∧
      s.current_chapter_number ≤
        (generate_next_chapter env s).state.current_chapter_number ∧
      (generate_next_chapter env s).state.current_chapter_number ≤
        s.current_chapter_number + 1 ∧
      ((generate_next_chapter env s).state.event =
          some evChapterGenerated ↔
        (generate_next_chapter env s).state.current_chapter_number =
          s.current_chapter_number + 1) ∧
      ((generate_next_chapter env s).state.event =
          some evAllChaptersDone ↔
        s.total_chapters < s.current_chapter_number) ∧
      (generate_next_chapter env s).state.current_chapter_number ≤
        max (s.total_chapters + 1) s.current_chapter_number) := by
  refine ⟨fun book => rfl, fun env s => ?_⟩
  refine ⟨gnc_total env s, ?_, ?_, ?_, gnc_allDone_iff env s, ?_⟩
  all_goals rcases gnc_event_current env s with ⟨he, hc, hlt⟩ | ⟨he, hc⟩
  · rw [hc]
    exact Nat.le_succ _
  · rw [hc]
  · rw [hc]
  · rw [hc]
    exact Nat.le_succ _
  · exact iff_of_true he hc
  · refine iff_of_false he ?_
    rw [hc]
    omega
  · rw [hc]
    exact le_trans (by omega) (le_max_left _ _)
  · rw [hc]
    exact le_max_right _ _

/-! ## Claim C5: chapter splitting -/

theorem markerSummary_ne_nil : markerSummary ≠ [] := by decide

theorem markerSummary_no_ws : ∀ c ∈ markerSummary, pyWS c = false := by
  decide

theorem isPre_length_le :
    ∀ (m l : Str), isPre m l = true → m.length ≤ l.length := by
  intro m
  induction m with
  | nil =>
    intro l _
    exact Nat.zero_le _
  | cons a as ih =>
    intro l h
    cases l with
    | nil => exact absurd h (by simp [isPre])
    | cons b bs =>
      simp only [isPre, Bool.and_eq_true] at h
      have := ih bs h.2
      simp only [List.length_cons]
      omega

theorem isPre_cons_ws_false (m : Str) (hne : m ≠ [])
    (hm : ∀ c ∈ m, pyWS c = false) (s : Char) (hs : pyWS s = true)
    (l : Str) : isPre m (s :: l) = false := by
  cases m with
  | nil => exact absurd rfl hne
  | cons a as =>
    have ha : pyWS a = false := hm a (List.mem_cons_self a as)
    have hne2 : ¬ a = s := by
      intro hh
      rw [hh, hs] at ha
      exact absurd ha (by decide)
    simp [isPre, hne2]

theorem isPre_append_ws (sp : Str) (hsp : ∀ c ∈ sp, pyWS c = true) :
    ∀ (x m : Str), (∀ c ∈ m, pyWS c = false) →
      isPre m (x ++ sp) = isPre m x := by
  intro x
  induction x with
  | nil =>
    intro m hm
    cases m with
    | nil => rfl
    | cons a as =>
      show isPre (a :: as) sp = isPre (a :: as) []
      cases sp with
      | nil => rfl
      | cons s sp2 =>
        rw [isPre_cons_ws_false (a :: as) (by simp) hm s
          (hsp s (List.mem_cons_self s sp2)) sp2]
        rfl
  | cons b x2 ih =>
    intro m hm
    cases m with
    | nil => rfl
    | cons a as =>
      have has : ∀ c ∈ as, pyWS c = false :=
        fun c hc => hm c (List.mem_cons_of_mem a hc)
      simp only [List.cons_append, List.append_eq, isPre]
      rw [ih as has]

theorem splitFirst_ws_none (m : Str) (hne : m ≠ [])
    (hm : ∀ c ∈ m, pyWS c = false) :
    ∀ sp, (∀ c ∈ sp, pyWS c = true) → splitFirst m sp = none := by
  intro sp
  induction sp with
  | nil =>
    intro _
    simp [splitFirst, hne]
  | cons s sp2 ih =>
    intro hsp
    have h1 : isPre m (s :: sp2) = false :=
      isPre_cons_ws_false m hne hm s (hsp s (List.mem_cons_self s sp2)) sp2
    simp only [splitFirst]
    rw [if_neg (by simp [h1]),
      ih (fun c hc => hsp c (List.mem_cons_of_mem s hc))]

theorem splitFirst_append_ws (m : Str) (hne : m ≠ [])
    (hm : ∀ c ∈ m, pyWS c = false) (sp : Str)
    (hsp : ∀ c ∈ sp, pyWS c = true) :
    ∀ x, splitFirst m (x ++ sp) =
      match splitFirst m x with
      | some p => some (p.1, p.2 ++ sp)
      | none => none := by
  intro x
  induction x with
  | nil =>
    rw [List.nil_append, splitFirst_ws_none m hne hm sp hsp]
    simp [splitFirst, hne]
  | cons c x2 ih =>
    have hiso : isPre m (c :: (x2 ++ sp)) = isPre m (c :: x2) := by
      have := isPre_append_ws sp hsp (c :: x2) m hm
      simpa using this
    by_cases h1 : isPre m (c :: x2) = true
    · have hlen : m.length ≤ (c :: x2).length := isPre_length_le m _ h1
      simp only [List.cons_append, List.append_eq, splitFirst]
      rw [if_pos (hiso.trans h1), if_pos h1]
      have hdrop : (c :: (x2 ++ sp)).drop m.length =
          (c :: x2).drop m.length ++ sp := by
        have h2 : (c :: (x2 ++ sp)) = (c :: x2) ++ sp := rfl
        rw [h2, List.drop_append_of_le_length hlen]
      rw [hdrop]
    · have h1f : isPre m (c :: x2) = false := by
        cases hb : isPre m (c :: x2)
        · rfl
        · exact absurd hb h1
      simp only [List.cons_append, List.append_eq, splitFirst]
      rw [if_neg (by simp [hiso, h1f]), if_neg (by simp [h1f]), ih]
      cases hsx : splitFirst m x2 with
      | none => rfl
      | some p =>
        cases p
        rfl

theorem splitFirst_ws_prepend (m : Str) (hne : m ≠ [])
    (hm : ∀ c ∈ m, pyWS c = false) :
    ∀ sp x, (∀ c ∈ sp, pyWS c = true) →
      splitFirst m (sp ++ x) =
        (splitFirst m x).map (fun p => (sp ++ p.1, p.2)) := by
  intro sp
  induction sp with
  | nil =>
    intro x _
    rw [List.nil_append]
    cases hsx : splitFirst m x with
    | none => rfl
    | some p =>
      cases p
      rfl
  | cons s sp2 ih =>
    intro x hsp
    have h1 : isPre m (s :: (sp2 ++ x)) = false :=
      isPre_cons_ws_false m hne hm s
        (hsp s (List.mem_cons_self s sp2)) (sp2 ++ x)
    simp only [List.cons_append, List.append_eq, splitFirst]
    rw [if_neg (by simp [h1]),
      ih x (fun c hc => hsp c (List.mem_cons_of_mem s hc))]
    cases hsx : splitFirst m x with
    | none => rfl
    | some p =>
      cases p
      rfl

theorem dropWhile_all_ws (sp : Str) (hsp : ∀ c ∈ sp, pyWS c = true) :
    sp.dropWhile pyWS = [] :=
  List.dropWhile_eq_nil_iff.mpr hsp

theorem pyStrip_ws_prepend (sp a : Str)
    (hsp : ∀ c ∈ sp, pyWS c = true) :
    pyStrip (sp ++ a) = pyStrip a := by
  unfold pyStrip
  rw [List.dropWhile_append_of_pos hsp]

theorem pyStrip_ws_append (a sp : Str)
    (hsp : ∀ c ∈ sp, pyWS c = true) :
    pyStrip (a ++ sp) = pyStrip a := by
  unfold pyStrip
  rw [List.dropWhile_append]
  by_cases h : (a.dropWhile pyWS).isEmpty = true
  · rw [if_pos h, dropWhile_all_ws sp hsp]
    have ha : a.dropWhile pyWS = [] := by
      cases hd : a.dropWhile pyWS
      · rfl
      · rw [hd] at h
        exact absurd h (by simp)
    rw [ha]
  · rw [if_neg h, List.reverse_append,
      List.dropWhile_append_of_pos
        (fun c hc => hsp c (List.mem_reverse.mp hc))]

theorem strip_decomposition (t : Str) :
    t = t.takeWhile pyWS ++ (pyStrip t ++
        ((t.dropWhile pyWS).reverse.takeWhile pyWS).reverse) ∧
    (∀ c ∈ t.takeWhile pyWS, pyWS c = true) ∧
    (∀ c ∈ ((t.dropWhile pyWS).reverse.takeWhile pyWS).reverse,
        pyWS c = true) := by
  refine ⟨?_, fun c hc => List.mem_takeWhile_imp hc,
    fun c hc => List.mem_takeWhile_imp (List.mem_reverse.mp hc)⟩
  have h1 : t.takeWhile pyWS ++ t.dropWhile pyWS = t :=
    List.takeWhile_append_dropWhile pyWS t
  have h2 : pyStrip t ++
      ((t.dropWhile pyWS).reverse.takeWhile pyWS).reverse =
      t.dropWhile pyWS := by
    unfold pyStrip
    rw [← List.reverse_append, List.takeWhile_append_dropWhile,
      List.reverse_reverse]
  conv_lhs => rw [← h1]
  rw [h2]

theorem splitFirst_full (t : Str) :
    splitFirst markerSummary t =
      (splitFirst markerSummary (pyStrip t)).map
        (fun p => (t.takeWhile pyWS ++ p.1,
          p.2 ++ ((t.dropWhile pyWS).reverse.takeWhile pyWS).reverse)) := by
  obtain ⟨hdec, hld, htr⟩ := strip_decomposition t
  conv_lhs => rw [hdec]
  rw [splitFirst_ws_prepend markerSummary markerSummary_ne_nil
      markerSummary_no_ws _ _ hld,
    splitFirst_append_ws markerSummary markerSummary_ne_nil
      markerSummary_no_ws _ htr (pyStrip t)]
  cases hs : splitFirst markerSummary (pyStrip t) with
  | none => rfl
  | some p =>
    cases p
    rfl

/-- C5: for any model reply, the stored chapter body and summary are the
trimmed text before and after the first occurrence of the literal marker
`"Summary:"`; when the marker is absent the body is the full trimmed
reply and the summary is exactly the fixed placeholder
`"Summary section not found."`. -/
theorem c5_chapter_splitting (t : Str) :
    splitChapter t = (specChapterBody t, specChapterSummary t) ∧
    (containsSub markerSummary t = false →
        splitChapter t = (pyStrip t, summaryPlaceholder)) := by
  have hfull := splitFirst_full t
  constructor
  · simp only [splitChapter, specChapterBody, specChapterSummary]
    rw [hfull]
    cases hs : splitFirst markerSummary (pyStrip t) with
    | none => rfl
    | some p =>
      cases p with
      | mk a b =>
        obtain ⟨hdec2, hld, htr⟩ := strip_decomposition t
        show (pyStrip a, pyStrip b) =
          (pyStrip (t.takeWhile pyWS ++ a),
           pyStrip (b ++
             ((t.dropWhile pyWS).reverse.takeWhile pyWS).reverse))
        rw [pyStrip_ws_prepend (t.takeWhile pyWS) a hld,
          pyStrip_ws_append b _ htr]
  · intro hc
    have hnone : splitFirst markerSummary t = none := by
      unfold containsSub at hc
      cases hs : splitFirst markerSummary t
      · rfl
      · rw [hs] at hc
        exact absurd hc (by simp)
    have hnone2 : splitFirst markerSummary (pyStrip t) = none := by
      rw [hfull] at hnone
      cases hs : splitFirst markerSummary (pyStrip t)
      · rfl
      · rw [hs] at hnone
        simp at hnone
    simp only [splitChapter]
    rw [hnone2]

/-- C5 witness: a reply without the marker keeps the full trimmed text as
body and gets the fixed placeholder as summary. -/
theorem c5_chapter_splitting_witness :
    splitChapter (lit " Chapter text only. ") =
      (pyStrip (lit " Chapter text only. "), summaryPlaceholder) :=
  (c5_chapter_splitting (lit " Chapter text only. ")).2 (by decide)

/-! ## Claim C10: sync defaults and worker eligibility -/

theorem dgetV_append (d e : List (Str × DbVal)) (k : Str) :
    dgetV (d ++ e) k = (dgetV d k).or (dgetV e k) := by
  unfold dgetV
  rw [List.find?_append]
  cases d.find? (fun p => p.1 == k) <;>
    cases e.find? (fun p => p.1 == k) <;> rfl

theorem dgetV_singleton_same (k : Str) (v : DbVal) :
    dgetV [(k, v)] k = some v := by
  simp [dgetV]

theorem dgetV_singleton_ne (k g : Str) (v : DbVal) (h : ¬ g = k) :
    dgetV [(k, v)] g = none := by
  unfold dgetV
  rw [List.find?_cons_of_neg]
  · rfl
  · simp
    exact fun hh => h hh.symm

theorem addOptionalField_ne (book : List (Str × Str))
    (d : List (Str × DbVal)) (f g : Str) (h : ¬ g = f) :
    dgetV (addOptionalField book d f) g = dgetV d g := by
  cases hget : dget book f with
  | none => simp [addOptionalField, hget]
  | some v =>
    simp only [addOptionalField, hget]
    by_cases ht : truthy v = true
    · rw [if_pos ht, dgetV_append, dgetV_singleton_ne f g (DbVal.s v) h]
      cases dgetV d g <;> rfl
    · rw [if_neg ht]

theorem addOptionalField_falsy (book : List (Str × Str))
    (d : List (Str × DbVal)) (f : Str)
    (h : truthyOpt (dget book f) = false) :
    addOptionalField book d f = d := by
  cases hd : dget book f with
  | none => simp [addOptionalField, hd]
  | some v =>
    rw [hd] at h
    simp only [truthyOpt] at h
    simp only [addOptionalField, hd]
    rw [if_neg (by simp [h])]

theorem foldl_addOptionalField_not_mem (book : List (Str × Str)) :
    ∀ (fields : List Str) (d : List (Str × DbVal)) (g : Str),
      g ∉ fields →
      dgetV (fields.foldl (addOptionalField book) d) g = dgetV d g := by
  intro fields
  induction fields with
  | nil =>
    intro d g _
    rfl
  | cons f fs ih =>
    intro d g hg
    rw [List.foldl_cons,
      ih _ g (fun hh => hg (List.mem_cons_of_mem f hh)),
      addOptionalField_ne book d f g
        (fun hh => hg (by rw [hh]; exact List.mem_cons_self f fs))]

theorem foldl_addOptionalField_falsy (book : List (Str × Str)) (g : Str)
    (hfal : truthyOpt (dget book g) = false) :
    ∀ (fields : List Str) (d : List (Str × DbVal)),
      dgetV (fields.foldl (addOptionalField book) d) g = dgetV d g := by
  intro fields
  induction fields with
  | nil =>
    intro d
    rfl
  | cons f fs ih =>
    intro d
    rw [List.foldl_cons, ih]
    by_cases hf : g = f
    · rw [← hf, addOptionalField_falsy book d g hfal]
    · rw [addOptionalField_ne book d f g hf]

theorem withDefault_same_none (k : Str) (v : DbVal)
    (d : List (Str × DbVal)) (h : dgetV d k = none) :
    dgetV (withDefault k v d) k = some v := by
  unfold withDefault
  rw [if_pos (by simp [h]), dgetV_append, h, dgetV_singleton_same]
  rfl

theorem withDefault_other (k g : Str) (v : DbVal)
    (d : List (Str × DbVal)) (h : ¬ g = k) :
    dgetV (withDefault k v d) g = dgetV d g := by
  unfold withDefault
  by_cases hd : (dgetV d k).isNone = true
  · rw [if_pos hd, dgetV_append, dgetV_singleton_ne k g v h]
    cases dgetV d g <;> rfl
  · rw [if_neg hd]

theorem excel_row_to_book_dict_some (row : List (Option Str))
    (headers : List Str) (book : List (Str × Str))
    (h : excel_row_to_book_dict row headers = some book) :
    book = buildBook headers row := by
  unfold excel_row_to_book_dict at h
  split at h
  · exact absurd h (by simp)
  · exact (Option.some.inj h).symm

theorem processRow_inv (headers : List Str) (idx : Nat)
    (row : List (Option Str)) (u : List (Str × DbVal))
    (hp : processRow headers idx row = some u) :
    ∃ sid ttl, u = upsertData (buildBook headers row) ttl sid := by
  unfold processRow at hp
  split at hp
  · exact absurd hp (by simp)
  · split at hp
    · exact absurd hp (by simp)
    · rename_i book heq
      have hbook := excel_row_to_book_dict_some row headers book heq
      split at hp
      · exact absurd hp (by simp)
      · split at hp
        · exact absurd hp (by simp)
        · rw [hbook] at hp
          exact ⟨_, _, (Option.some.inj hp).symm⟩

/-- C10: for every synced spreadsheet row that produces an upsert, the
three gating fields default to `no_notes_needed` whenever the row left
them empty or absent, `outline_status` is set to `pending` and
`book_output_status` to `not_started`, and the resulting record matches
the worker discovery filter for pending outlines. -/
theorem c10_sync_defaults (headers : List Str) (idx : Nat)
    (row : List (Option Str)) (u : List (Str × DbVal))
    (hp : processRow headers idx row = some u) :
    (truthyOpt (dget (buildBook headers row)
        (lit "status_outline_notes")) = false →
      dgetV u (lit "status_outline_notes") =
        some (DbVal.s stNoNotesNeeded)) ∧
    (truthyOpt (dget (buildBook headers row)
        (lit "chapter_notes_status")) = false →
      dgetV u (lit "chapter_notes_status") =
        some (DbVal.s stNoNotesNeeded)) ∧
    (truthyOpt (dget (buildBook headers row)
        (lit "final_review_notes_status")) = false →
      dgetV u (lit "final_review_notes_status") =
        some (DbVal.s stNoNotesNeeded)) ∧
    dgetV u (lit "outline_status") = some (DbVal.s (lit "pending")) ∧
    dgetV u (lit "book_output_status") =
      some (DbVal.s (lit "not_started")) ∧
    upsertEligiblePendingOutline u = true := by
  obtain ⟨sid, ttl, hu⟩ := processRow_inv headers idx row u hp
  subst hu
  have hos : dgetV (upsertData (buildBook headers row) ttl sid)
      (lit "outline_status") = some (DbVal.s (lit "pending")) := by
    simp only [upsertData]
    rw [withDefault_other _ _ _ _ (by decide),
      withDefault_same_none _ _ _ ?_]
    rw [withDefault_other _ _ _ _ (by decide),
      withDefault_other _ _ _ _ (by decide),
      withDefault_other _ _ _ _ (by decide),
      foldl_addOptionalField_not_mem _ _ _ _ (by decide)]
    rfl
  have hnob : dgetV (upsertData (buildBook headers row) ttl sid)
      (lit "notes_on_outline_before") =
      some (DbVal.s ((dget (buildBook headers row)
        (lit "notes_on_outline_before")).getD [])) := by
    simp only [upsertData]
    rw [withDefault_other _ _ _ _ (by decide),
      withDefault_other _ _ _ _ (by decide),
      withDefault_other _ _ _ _ (by decide),
      withDefault_other _ _ _ _ (by decide),
      withDefault_other _ _ _ _ (by decide),
      foldl_addOptionalField_not_mem _ _ _ _ (by decide)]
    rfl
  refine ⟨?_, ?_, ?_, hos, ?_, ?_⟩
  · intro hfal
    simp only [upsertData]
    rw [withDefault_other _ _ _ _ (by decide),
      withDefault_other _ _ _ _ (by decide),
      withDefault_other _ _ _ _ (by decide),
      withDefault_other _ _ _ _ (by decide),
      withDefault_same_none _ _ _ ?_]
    rw [foldl_addOptionalField_falsy _ _ hfal]
    rfl
  · intro hfal
    simp only [upsertData]
    rw [withDefault_other _ _ _ _ (by decide),
      withDefault_other _ _ _ _ (by decide),
      withDefault_other _ _ _ _ (by decide),
      withDefault_same_none _ _ _ ?_]
    rw [withDefault_other _ _ _ _ (by decide),
      foldl_addOptionalField_falsy _ _ hfal]
    rfl
  · intro hfal
    simp only [upsertData]
    rw [withDefault_other _ _ _ _ (by decide),
      withDefault_other _ _ _ _ (by decide),
      withDefault_same_none _ _ _ ?_]
    rw [withDefault_other _ _ _ _ (by decide),
      withDefault_other _ _ _ _ (by decide),
      foldl_addOptionalField_falsy _ _ hfal]
    rfl
  · simp only [upsertData]
    rw [withDefault_same_none _ _ _ ?_]
    rw [withDefault_other _ _ _ _ (by decide),
      withDefault_other _ _ _ _ (by decide),
      withDefault_other _ _ _ _ (by decide),
      withDefault_other _ _ _ _ (by decide),
      foldl_addOptionalField_not_mem _ _ _ _ (by decide)]
    rfl
  · unfold upsertEligiblePendingOutline pendingOutlineFilter
    rw [hos, hnob]
    simp

/-- C10 witness: a row with a valid title and pre-outline notes but an
empty chapter-gating cell produces an upsert with the defaults applied
and eligible for worker discovery. -/
theorem c10_sync_defaults_witness :
    processRow sampleHeaders 3 sampleRow = some sampleUpsert ∧
    dgetV sampleUpsert (lit "chapter_notes_status") =
      some (DbVal.s stNoNotesNeeded) ∧
    dgetV sampleUpsert (lit "outline_status") =
      some (DbVal.s (lit "pending")) ∧
    upsertEligiblePendingOutline sampleUpsert = true := by
  refine ⟨by decide, ?_, ?_, ?_⟩
  · exact (c10_sync_defaults sampleHeaders 3 sampleRow sampleUpsert
      (by decide)).2.1 (by decide)
  · exact (c10_sync_defaults sampleHeaders 3 sampleRow sampleUpsert
      (by decide)).2.2.2.1
  · exact (c10_sync_defaults sampleHeaders 3 sampleRow sampleUpsert
      (by decide)).2.2.2.2.2

/-! ## Claim C2: the engine terminates with a bounded trace -/

theorem run_succ (env : Env) (f : Nat) (node : Node) (s : WState) :
    run env (f + 1) node s =
      match runNodeExc env node s with
      | Except.error _ => some ([node], s)
      | Except.ok out =>
          match routeFrom env node out.state with
          | (some next, s2) =>
              match run env f next s2 with
              | some (tr, sf) => some (node :: tr, sf)
              | none => none
          | (none, s2) => some ([node], s2) := rfl

theorem run_step_abort (env : Env) (f : Nat) (node : Node) (s : WState)
    (e : StageAbort)
    (hnode : runNodeExc env node s = Except.error e) :
    run env (f + 1) node s = some ([node], s) := by
  rw [run_succ, hnode]

theorem run_step_continue (env : Env) (f : Nat) (node next : Node)
    (s : WState) (out : StageOut) (s2 : WState)
    (hnode : runNodeExc env node s = Except.ok out)
    (hroute : routeFrom env node out.state = (some next, s2)) :
    run env (f + 1) node s =
      match run env f next s2 with
      | some (tr, sf) => some (node :: tr, sf)
      | none => none := by
  rw [run_succ, hnode]
  show (match routeFrom env node out.state with
    | (some next, s2) =>
        match run env f next s2 with
        | some (tr, sf) => some (node :: tr, sf)
        | none => none
    | (none, s2) => some ([node], s2)) = _
  rw [hroute]

theorem run_notify (env : Env) (f : Nat) (s : WState) :
    run env (f + 1) Node.notify s =
      some ([Node.notify], (notifyStage env s).state) := by
  rw [run_succ]
  rfl

theorem compile_book_event (env : Env) (s : WState) (out : StageOut)
    (h : compile_book env s = Except.ok out) :
    out.state.event = some evBookCompiled ∨
    out.state.event = some evFinalReviewNotReady := by
  unfold compile_book at h
  by_cases hr : compileReady env.frStatus (orEmpty env.frNotes) = true
  · rw [if_neg (by simp [hr])] at h
    by_cases hst : env.pdfStoryOk = false
    · rw [if_pos hst] at h
      exact Except.noConfusion h
    · rw [if_neg hst] at h
      have h1 := Except.ok.inj h
      rw [← h1]
      exact Or.inl rfl
  · rw [if_pos (by simpa using hr)] at h
    have h1 := Except.ok.inj h
    rw [← h1]
    exact Or.inr rfl

theorem routeFrom_compile_notify (env : Env) (s : WState)
    (hev : s.event = some evBookCompiled ∨
      s.event = some evFinalReviewNotReady) :
    routeFrom env Node.compile s = (some Node.notify, s) := by
  simp only [routeFrom, router_after_compile]
  rcases hev with hev | hev
  · rw [if_pos hev]
    rfl
  · have e1 : ¬ s.event = some evBookCompiled := by
      rw [hev]
      decide
    rw [if_neg e1, if_pos hev]
    rfl

theorem run_compile (env : Env) (f : Nat) (s : WState) :
    ∃ tr sf, run env (f + 2) Node.compile s = some (tr, sf) ∧
      tr.count Node.chapter = 0 ∧ tr.count Node.outline = 0 ∧
      tr.count Node.compile ≤ 1 ∧ tr.count Node.notify ≤ 1 := by
  cases hc : compile_book env s with
  | error e =>
      refine ⟨[Node.compile], s, ?_, by decide, by decide, by decide,
        by decide⟩
      rw [show f + 2 = (f + 1) + 1 from rfl]
      exact run_step_abort env (f + 1) Node.compile s e hc
  | ok out =>
      refine ⟨[Node.compile, Node.notify],
        (notifyStage env out.state).state, ?_, by decide, by decide,
        by decide, by decide⟩
      rw [show f + 2 = (f + 1) + 1 from rfl,
        run_step_continue env (f + 1) Node.compile Node.notify s out
          out.state hc
          (routeFrom_compile_notify env out.state
            (compile_book_event env s out hc)),
        run_notify]

theorem router_after_chapter_eq (s : WState) :
    router_after_chapter s =
      (if s.event = some evChapterGenerated then
        (if s.current_chapter_number ≤ s.total_chapters then
          lit "generate_next_chapter"
        else lit "compile_book")
      else if s.event = some evAllChaptersDone then lit "compile_book"
      else lit "notify") := by
  unfold router_after_chapter
  by_cases h1 : s.event = some evWaitingChapterNotes
  · have e1 : ¬ s.event = some evChapterGenerated := by rw [h1]; decide
    have e2 : ¬ s.event = some evAllChaptersDone := by rw [h1]; decide
    rw [if_pos (Or.inl h1), if_neg e1, if_neg e2]
  · by_cases h2 : s.event = some evPausedChapterStatus
    · have e1 : ¬ s.event = some evChapterGenerated := by rw [h2]; decide
      have e2 : ¬ s.event = some evAllChaptersDone := by rw [h2]; decide
      rw [if_pos (Or.inr h2), if_neg e1, if_neg e2]
    · rw [if_neg (by
        rintro (hh | hh)
        exacts [h1 hh, h2 hh])]

theorem routeFrom_chapter_allDone (env : Env) (s : WState)
    (hev : s.event = some evAllChaptersDone) :
    routeFrom env Node.chapter s = (some Node.compile, s) := by
  simp only [routeFrom, router_after_chapter_eq]
  have e1 : ¬ s.event = some evChapterGenerated := by rw [hev]; decide
  rw [if_neg e1, if_pos hev]
  rfl

theorem routeFrom_chapter_notifyEv (env : Env) (s : WState)
    (hev : s.event = some evWaitingChapterNotes ∨
      s.event = some evPausedChapterStatus) :
    routeFrom env Node.chapter s = (some Node.notify, s) := by
  simp only [routeFrom, router_after_chapter_eq]
  have e1 : ¬ s.event = some evChapterGenerated := by
    rcases hev with hev | hev <;> rw [hev] <;> decide
  have e2 : ¬ s.event = some evAllChaptersDone := by
    rcases hev with hev | hev <;> rw [hev] <;> decide
  rw [if_neg e1, if_neg e2]
  rfl

theorem routeFrom_chapter_generated (env : Env) (s : WState)
    (hev : s.event = some evChapterGenerated) :
    routeFrom env Node.chapter s =
      (if s.current_chapter_number ≤ s.total_chapters then
        (some Node.chapter, s)
      else (some Node.compile, s)) := by
  simp only [routeFrom, router_after_chapter_eq]
  rw [if_pos hev]
  by_cases hc : s.current_chapter_number ≤ s.total_chapters
  · rw [if_pos hc, if_pos hc]
    rfl
  · rw [if_neg hc, if_neg hc]
    rfl

theorem gnc_event_trichotomy (env : Env) (s : WState)
    (h : ¬ s.total_chapters < s.current_chapter_number) :
    (generate_next_chapter env s).state.event =
      some evWaitingChapterNotes ∨
    (generate_next_chapter env s).state.event =
      some evPausedChapterStatus ∨
    ((generate_next_chapter env s).state.event =
      some evChapterGenerated ∧
     (generate_next_chapter env s).state.current_chapter_number =
       s.current_chapter_number + 1 ∧
     (generate_next_chapter env s).state.total_chapters =
       s.total_chapters) := by
  simp only [generate_next_chapter]
  rw [if_neg h]
  generalize (match env.chapterRow s.current_chapter_number with
    | some r => r.chapter_notes_status
    | none => none) = st
  by_cases h1 : st = some stYes
  · rw [if_pos h1]
    exact Or.inl rfl
  · rw [if_neg h1]
    by_cases h2 : (¬ st = none ∧ ¬ st = some stNoNotesNeeded)
    · rw [if_pos h2]
      exact Or.inr (Or.inl rfl)
    · rw [if_neg h2]
      exact Or.inr (Or.inr ⟨rfl, rfl, backfillSummaries_total env s⟩)

theorem run_chapter (env : Env) :
    ∀ (k : Nat) (s : WState),
      s.total_chapters + 1 ≤ s.current_chapter_number + k →
      ∃ tr sf, run env (k + 3) Node.chapter s = some (tr, sf) ∧
        tr.count Node.chapter ≤ k + 1 ∧ tr.count Node.outline = 0 ∧
        tr.count Node.compile ≤ 1 ∧ tr.count Node.notify ≤ 1 := by
  intro k
  induction k with
  | zero =>
    intro s hs
    have h : s.total_chapters < s.current_chapter_number := by omega
    have hev : (generate_next_chapter env s).state.event =
        some evAllChaptersDone := (gnc_allDone_iff env s).mpr h
    obtain ⟨tr, sf, htr, hb1, hb2, hb3, hb4⟩ :=
      run_compile env 0 (generate_next_chapter env s).state
    rw [show (0 : Nat) + 3 = (0 + 2) + 1 from rfl,
      run_step_continue env (0 + 2) Node.chapter Node.compile s
        (generate_next_chapter env s)
        (generate_next_chapter env s).state rfl
        (routeFrom_chapter_allDone env _ hev),
      htr]
    refine ⟨_, _, rfl, ?_, ?_, ?_, ?_⟩
    · rw [List.count_cons_self]
      omega
    · rw [List.count_cons_of_ne (by decide)]
      exact hb2
    · rw [List.count_cons_of_ne (by decide)]
      exact hb3
    · rw [List.count_cons_of_ne (by decide)]
      exact hb4
  | succ k ih =>
    intro s hs
    by_cases h : s.total_chapters < s.current_chapter_number
    · have hev : (generate_next_chapter env s).state.event =
          some evAllChaptersDone := (gnc_allDone_iff env s).mpr h
      obtain ⟨tr, sf, htr, hb1, hb2, hb3, hb4⟩ :=
        run_compile env (k + 1) (generate_next_chapter env s).state
      rw [show k + 1 + 3 = ((k + 1) + 2) + 1 from rfl,
        run_step_continue env ((k + 1) + 2) Node.chapter Node.compile s
          (generate_next_chapter env s)
          (generate_next_chapter env s).state rfl
          (routeFrom_chapter_allDone env _ hev),
        htr]
      refine ⟨_, _, rfl, ?_, ?_, ?_, ?_⟩
      · rw [List.count_cons_self]
        omega
      · rw [List.count_cons_of_ne (by decide)]
        exact hb2
      · rw [List.count_cons_of_ne (by decide)]
        exact hb3
      · rw [List.count_cons_of_ne (by decide)]
        exact hb4
    · rcases gnc_event_trichotomy env s h with hev | hev | ⟨hev, hcur, htot⟩
      · rw [show k + 1 + 3 = ((k + 2) + 1) + 1 from rfl,
          run_step_continue env ((k + 2) + 1) Node.chapter Node.notify s
            (generate_next_chapter env s)
            (generate_next_chapter env s).state rfl
            (routeFrom_chapter_notifyEv env _ (Or.inl hev)),
          run_notify]
        refine ⟨_, _, rfl, ?_, by decide, by decide, by decide⟩
        show (1 : Nat) ≤ k + 1 + 1
        omega
      · rw [show k + 1 + 3 = ((k + 2) + 1) + 1 from rfl,
          run_step_continue env ((k + 2) + 1) Node.chapter Node.notify s
            (generate_next_chapter env s)
            (generate_next_chapter env s).state rfl
            (routeFrom_chapter_notifyEv env _ (Or.inr hev)),
          run_notify]
        refine ⟨_, _, rfl, ?_, by decide, by decide, by decide⟩
        show (1 : Nat) ≤ k + 1 + 1
        omega
      · have hroute := routeFrom_chapter_generated env
          (generate_next_chapter env s).state hev
        by_cases hc : (generate_next_chapter env s).state.current_chapter_number ≤
            (generate_next_chapter env s).state.total_chapters
        · rw [show k + 1 + 3 = (k + 3) + 1 from rfl,
            run_step_continue env (k + 3) Node.chapter Node.chapter s
              (generate_next_chapter env s)
              (generate_next_chapter env s).state rfl
              (by
                show routeFrom env Node.chapter
                    (generate_next_chapter env s).state =
                  (some Node.chapter, (generate_next_chapter env s).state)
                rw [hroute, if_pos hc])]
          obtain ⟨tr, sf, htr, hc1, hc2, hc3, hc4⟩ :=
            ih (generate_next_chapter env s).state
              (by rw [hcur, htot]; omega)
          rw [htr]
          refine ⟨_, _, rfl, ?_, ?_, ?_, ?_⟩
          · rw [List.count_cons_self]
            omega
          · rw [List.count_cons_of_ne (by decide)]
            exact hc2
          · rw [List.count_cons_of_ne (by decide)]
            exact hc3
          · rw [List.count_cons_of_ne (by decide)]
            exact hc4
        · obtain ⟨tr, sf, htr, hb1, hb2, hb3, hb4⟩ :=
            run_compile env (k + 1) (generate_next_chapter env s).state
          rw [show k + 1 + 3 = ((k + 1) + 2) + 1 from rfl,
            run_step_continue env ((k + 1) + 2) Node.chapter Node.compile s
              (generate_next_chapter env s)
              (generate_next_chapter env s).state rfl
              (by
                show routeFrom env Node.chapter
                    (generate_next_chapter env s).state =
                  (some Node.compile, (generate_next_chapter env s).state)
                rw [hroute, if_neg hc]),
            htr]
          refine ⟨_, _, rfl, ?_, ?_, ?_, ?_⟩
          · rw [List.count_cons_self]
            omega
          · rw [List.count_cons_of_ne (by decide)]
            exact hb2
          · rw [List.count_cons_of_ne (by decide)]
            exact hb3
          · rw [List.count_cons_of_ne (by decide)]
            exact hb4

theorem generate_outline_missing (env : Env) (s : WState)
    (hn : truthyOpt s.notes_on_outline_before = false) :
    (generate_outline env s).state =
      { s with event := some evMissingNotes } := by
  unfold generate_outline
  rw [if_pos hn]

theorem generate_outline_generated (env : Env) (s : WState)
    (hn : ¬ truthyOpt s.notes_on_outline_before = false) :
    (generate_outline env s).state.event = some evOutlineGenerated ∧
    (generate_outline env s).state.total_chapters = env.chapterCount ∧
    (generate_outline env s).state.current_chapter_number =
      s.current_chapter_number := by
  unfold generate_outline
  rw [if_neg hn]
  exact ⟨rfl, rfl, rfl⟩

theorem routeFrom_outline_missing (env : Env) (s : WState)
    (hev : s.event = some evMissingNotes) :
    routeFrom env Node.outline s =
      (some Node.notify,
        { s with
            route_reason := some (lit "outline_missing_notes_before") }) := by
  simp only [routeFrom, router_after_outline]
  rw [if_pos hev]
  rfl

theorem routeFrom_outline_generated (env : Env) (s : WState)
    (hev : s.event = some evOutlineGenerated) :
    routeFrom env Node.outline s =
      (if env.statusOutline = some stYes then
        (some Node.notify,
          { s with status_outline_notes := env.statusOutline,
                   event := some evOutlineWaiting })
      else if env.statusOutline = some stNoNotesNeeded then
        (some Node.chapter,
          { s with status_outline_notes := env.statusOutline })
      else
        (some Node.notify,
          { s with status_outline_notes := env.statusOutline,
                   event := some evOutlinePausedStatus })) := by
  simp only [routeFrom, router_after_outline]
  have e1 : ¬ s.event = some evMissingNotes := by rw [hev]; decide
  have e2 : ¬ s.event ≠ some evOutlineGenerated := by simp [hev]
  rw [if_neg e1, if_neg e2]
  by_cases hy : env.statusOutline = some stYes
  · rw [if_pos hy, if_pos hy]
    rfl
  · rw [if_neg hy, if_neg hy]
    by_cases hnn : env.statusOutline = some stNoNotesNeeded
    · rw [if_pos hnn, if_pos hnn]
      rfl
    · rw [if_neg hnn, if_neg hnn]
      rfl

/-- C2: every invocation of the workflow engine, started at the outline
node on a freshly loaded state, terminates within a fuel budget of the
chapter target count plus four, visiting the outline, compile and notify
nodes at most once each and the chapter node at most the chapter target
count plus one times; the chapter loop is bounded because the chapter
index strictly increases on each pass (see `c4_chapter_index_monotone`). -/
theorem c2_engine_terminates (env : Env) (book : BookRow) :
    ∃ tr sf,
      run env (env.chapterCount + 4) Node.outline
        (load_initial_state book) = some (tr, sf) ∧
      tr.count Node.outline ≤ 1 ∧
      tr.count Node.chapter ≤ env.chapterCount + 1 ∧
      tr.count Node.compile ≤ 1 ∧
      tr.count Node.notify ≤ 1 := by
  by_cases hn : truthyOpt
      (load_initial_state book).notes_on_outline_before = false
  · have hev : (generate_outline env
        (load_initial_state book)).state.event = some evMissingNotes := by
      rw [generate_outline_missing env (load_initial_state book) hn]
    rw [show env.chapterCount + 4 =
        ((env.chapterCount + 2) + 1) + 1 from rfl,
      run_step_continue env ((env.chapterCount + 2) + 1) Node.outline
        Node.notify (load_initial_state book)
        (generate_outline env (load_initial_state book)) _ rfl
        (routeFrom_outline_missing env _ hev),
      run_notify]
    refine ⟨_, _, rfl, ?_, ?_, ?_, ?_⟩
    · exact Nat.le_refl _
    · exact Nat.zero_le _
    · exact Nat.zero_le _
    · exact Nat.le_refl _
  · obtain ⟨hev, htot, hcur⟩ :=
      generate_outline_generated env (load_initial_state book) hn
    have hroute := routeFrom_outline_generated env
      (generate_outline env (load_initial_state book)).state hev
    by_cases hy : env.statusOutline = some stYes
    · rw [show env.chapterCount + 4 =
          ((env.chapterCount + 2) + 1) + 1 from rfl,
        run_step_continue env ((env.chapterCount + 2) + 1) Node.outline
          Node.notify (load_initial_state book)
          (generate_outline env (load_initial_state book))
          { (generate_outline env (load_initial_state book)).state with
              status_outline_notes := env.statusOutline,
              event := some evOutlineWaiting }
          rfl
          (by
            show routeFrom env Node.outline
                (generate_outline env (load_initial_state book)).state = _
            rw [hroute, if_pos hy]),
        run_notify]
      refine ⟨_, _, rfl, ?_, ?_, ?_, ?_⟩
      · exact Nat.le_refl _
      · exact Nat.zero_le _
      · exact Nat.zero_le _
      · exact Nat.le_refl _
    · by_cases hnn : env.statusOutline = some stNoNotesNeeded
      · rw [show env.chapterCount + 4 =
            (env.chapterCount + 3) + 1 from rfl,
          run_step_continue env (env.chapterCount + 3) Node.outline
            Node.chapter (load_initial_state book)
            (generate_outline env (load_initial_state book))
            { (generate_outline env (load_initial_state book)).state with
                status_outline_notes := env.statusOutline }
            rfl
            (by
              show routeFrom env Node.outline
                  (generate_outline env (load_initial_state book)).state = _
              rw [hroute, if_neg hy, if_pos hnn])]
        obtain ⟨tr, sf, htr, hc1, hc2, hc3, hc4⟩ :=
          run_chapter env env.chapterCount
            { (generate_outline env (load_initial_state book)).state with
              status_outline_notes := env.statusOutline }
            (by
              show (generate_outline env
                  (load_initial_state book)).state.total_chapters + 1 ≤
                (generate_outline env
                  (load_initial_state book)).state.current_chapter_number +
                env.chapterCount
              rw [htot, hcur]
              have : (load_initial_state book).current_chapter_number =
                1 := rfl
              omega)
        rw [htr]
        refine ⟨_, _, rfl, ?_, ?_, ?_, ?_⟩
        · rw [List.count_cons_self]
          omega
        · rw [List.count_cons_of_ne (by decide)]
          omega
        · rw [List.count_cons_of_ne (by decide)]
          exact hc3
        · rw [List.count_cons_of_ne (by decide)]
          exact hc4
      · rw [show env.chapterCount + 4 =
            ((env.chapterCount + 2) + 1) + 1 from rfl,
          run_step_continue env ((env.chapterCount + 2) + 1) Node.outline
            Node.notify (load_initial_state book)
            (generate_outline env (load_initial_state book))
            { (generate_outline env (load_initial_state book)).state with
                status_outline_notes := env.statusOutline,
                event := some evOutlinePausedStatus }
            rfl
            (by
              show routeFrom env Node.outline
                  (generate_outline env (load_initial_state book)).state = _
              rw [hroute, if_neg hy, if_neg hnn]),
          run_notify]
        refine ⟨_, _, rfl, ?_, ?_, ?_, ?_⟩
        · exact Nat.le_refl _
        · exact Nat.zero_le _
        · exact Nat.zero_le _
        · exact Nat.le_refl _

end BookFlow
